import Mathlib

/-! Render throttle of `ctkVTKOpenVRAbstractView` and animation state of
`ctkVTKOpenVRRenderView`

Shallow embedding of the render-request throttle found in
`Libs/Visualization/VTK/Widgets/ctkVTKOpenVRAbstractView.cpp`
(`scheduleRender`, `forceRender`, `setRenderEnabled`, `renderEnabled`) and of the
setters, rotations and animation slots of
`Libs/Visualization/VTK/Widgets/ctkVTKOpenVRRenderView.cpp`, together with the
properties the specification states about them.

Modelling conventions.

* The private object `ctkVTKOpenVRAbstractViewPrivate` is a record.  The single-shot
  `QTimer* RequestTimer` is `none` while it is stopped and `some ms` while it is armed
  with the interval `ms` it was started with.  The `QTime RequestTime` is `none` while
  it is the invalid `QTime()` and `some t` once `start()` stored the clock reading `t`.
  The render window is represented by the number of `Render()` calls it has received.
* What the code reads from its collaborators is an argument of the embedded function:
  `RenderWindow->GetDesiredUpdateRate()`, the `Qt::WA_WState_InPaintEvent` attribute of
  the VTK widget, `isVisible()`, the clock, and whether `sender()` is `RequestTimer`.
* The value of the `double` variable `msecsBeforeRender` is a rational or `+∞`.
  `scheduleRenderAt` is the body of `scheduleRender()` with that value as an argument,
  so what is proved about it holds whatever the floating-point division returned.
  `doubleQuotient` is the division `100. / rate` as IEEE-754 binary64 performs it
  (round to nearest, ties to even) for a nonnegative rate.  `scheduleRender`
  instantiates the value with the exact quotient `100 / rate`, which leaves the rounding
  of the division out.
* Clock readings are integer milliseconds and `elapsed()` is the difference of two
  readings.  `int` is unbounded; statements that depend on a value converted by
  `static_cast<int>` keep it within the range of `int`.
-/

namespace CTK

/-- Value of the `double` variable `msecsBeforeRender`: a finite number, kept exact, or
`+∞`, which IEEE-754 arithmetic returns for `100. / 0.`. -/
inductive MSecs where
  | finite (q : ℚ)
  | posInf
  deriving DecidableEq

/-- The C++ comparison `x > bound` for a finite `bound`. -/
def MSecs.gt : MSecs → ℚ → Bool
  | MSecs.finite q, bound => decide (bound < q)
  | MSecs.posInf, _ => true

/-- The C++ comparison `n > x` for an `int` value `n` (promoted to `double`). -/
def MSecs.ltInt : MSecs → Int → Bool
  | MSecs.finite q, n => decide (q < (n : ℚ))
  | MSecs.posInf, _ => false

/-- The expression `100. / d->RenderWindow->GetDesiredUpdateRate()` evaluated exactly,
without the rounding of binary64 arithmetic (`doubleQuotient` is the rounded value); a
zero rate stands for `+0.0`. -/
def msecsBeforeRender (DesiredUpdateRate : ℚ) : MSecs :=
  if DesiredUpdateRate = 0 then MSecs.posInf else MSecs.finite (100 / DesiredUpdateRate)

/-- The statement `if (msecsBeforeRender > 10000) { msecsBeforeRender = 0; }` of the
still-mode branch: the value held by the variable afterwards, which is finite. -/
def stillModeReset (m : MSecs) : ℚ :=
  match m with
  | MSecs.posInf => 0
  | MSecs.finite q => if MSecs.gt (MSecs.finite q) 10000 then 0 else q

/-- The conversion `static_cast<int>(x)` of a finite `double`: truncation toward zero.
C++ defines the conversion only when the truncated value fits in `int`, that is for
`-2147483649 < x < 2147483648`; outside that range this function still truncates. -/
def staticCastInt (x : ℚ) : Int :=
  if 0 ≤ x then ⌊x⌋ else ⌈x⌉

/-- Number of binary digits of `n`, computed with `fuel` steps (`fuel = n` is enough). -/
def bitLength : Nat → Nat → Nat
  | 0, _ => 0
  | fuel + 1, n => if n = 0 then 0 else bitLength fuel (n / 2) + 1

/-- The integer `k` with `2 ^ k ≤ a / b < 2 ^ (k + 1)`, for positive `a` and `b`. -/
def floorLog2 (a b : Nat) : Int :=
  let k0 : Int := (bitLength a a : Int) - (bitLength b b : Int)
  if (if 0 ≤ k0 then decide (b * 2 ^ k0.toNat ≤ a) else decide (b ≤ a * 2 ^ (-k0).toNat))
  then k0 else k0 - 1

/-- The integer nearest to `p / q`, the even one of the two when `p / q` lies halfway. -/
def roundHalfEven (p q : Nat) : Nat :=
  let n := p / q
  let rem := p % q
  if 2 * rem < q then n else if q < 2 * rem then n + 1 else if n % 2 = 0 then n else n + 1

/-- Significand `m` and exponent `e` of the binary64 number `m * 2 ^ e` nearest to
`a / b` (positive `a`, `b`): `e` is chosen so that `a / b / 2 ^ e` has 53 binary digits
before the point, but not below the subnormal exponent -1074, and `m` is that scaled
quotient rounded to the nearest integer, ties to even. -/
def binary64Parts (a b : Nat) : Nat × Int :=
  let k := floorLog2 a b - 52
  let e : Int := if k < -1074 then -1074 else k
  let m :=
    if 0 ≤ e then roundHalfEven a (b * 2 ^ e.toNat) else roundHalfEven (a * 2 ^ (-e).toNat) b
  (m, e)

/-- The rational `m * 2 ^ e`. -/
def binary64Value (parts : Nat × Int) : ℚ :=
  if 0 ≤ parts.2 then (parts.1 : ℚ) * (2 : ℚ) ^ parts.2.toNat
  else (parts.1 : ℚ) / (2 : ℚ) ^ (-parts.2).toNat

/-- The IEEE-754 binary64 result of rounding the nonnegative quotient `a / b` (`b`
positive) to nearest, ties to even: `+∞` when the rounded value reaches `2 ^ 1024`. -/
def roundBinary64 (a b : Nat) : MSecs :=
  if a = 0 then MSecs.finite 0
  else if (2 : ℚ) ^ 1024 ≤ binary64Value (binary64Parts a b) then MSecs.posInf
  else MSecs.finite (binary64Value (binary64Parts a b))

/-- The value of `100. / d->RenderWindow->GetDesiredUpdateRate()` in binary64 arithmetic
for the nonnegative rate `rateNum / rateDen` (`rateDen` positive): the quotient rounded
to the nearest double, and `+∞` for the rate `+0.0`. -/
def doubleQuotient (rateNum rateDen : Nat) : MSecs :=
  if rateNum = 0 then MSecs.posInf else roundBinary64 (100 * rateDen) rateNum

/-- State of `ctkVTKOpenVRAbstractViewPrivate`, with the render window reduced to the
number of `Render()` calls made on it. -/
structure ctkVTKOpenVRAbstractViewPrivate where
  /-- Interval in ms the single-shot timer is armed with, `none` while stopped. -/
  RequestTimer : Option Int
  /-- Clock reading stored by `RequestTime.start()`, `none` for the invalid `QTime()`. -/
  RequestTime : Option Int
  RenderEnabled : Bool
  FPSVisible : Bool
  /-- Whether the FPS timer is running. -/
  FPSTimer : Bool
  FPS : Int
  /-- Number of `RenderWindow->Render()` calls performed so far. -/
  Renders : Nat
  deriving DecidableEq

/-- State after the constructor of the private class followed by `init()`: both timers
exist and are stopped, `RequestTime` is the default (invalid) `QTime`. -/
def init : ctkVTKOpenVRAbstractViewPrivate :=
  { RequestTimer := none
    RequestTime := none
    RenderEnabled := true
    FPSVisible := false
    FPSTimer := false
    FPS := 0
    Renders := 0 }

/-- `ctkVTKOpenVRAbstractView::forceRender()`.  `senderIsRequestTimer` is the value of
`this->sender() == d->RequestTimer`, `isVisible` the value of `this->isVisible()`. -/
def forceRender (d : ctkVTKOpenVRAbstractViewPrivate) (senderIsRequestTimer : Bool)
    (isVisible : Bool) : ctkVTKOpenVRAbstractViewPrivate :=
  if senderIsRequestTimer && d.RequestTime.isNone then
    d
  else
    -- d->RequestTimer->stop(); d->RequestTime = QTime();
    let d1 := { d with RequestTimer := none, RequestTime := none }
    if !d1.RenderEnabled || !isVisible then
      d1
    else
      -- d->RenderWindow->Render();
      { d1 with Renders := d1.Renders + 1 }

/-- `ctkVTKOpenVRAbstractView::scheduleRender()` from the point where the local
`double msecsBeforeRender` holds the value `msecs` of
`100. / d->RenderWindow->GetDesiredUpdateRate()`.  `InPaintEvent` is the value of
`d->VTKWidget->testAttribute(Qt::WA_WState_InPaintEvent)`, `currentTime` the clock
reading in ms.  The slot is never connected to `RequestTimer`, so the nested
`forceRender()` calls run with a sender other than the timer. -/
def scheduleRenderAt (d : ctkVTKOpenVRAbstractViewPrivate) (msecs : MSecs)
    (InPaintEvent : Bool) (isVisible : Bool) (currentTime : Int) :
    ctkVTKOpenVRAbstractViewPrivate :=
  if !d.RenderEnabled then
    d
  else if InPaintEvent then
    forceRender d false isVisible
  else
    match d.RequestTime with
    | none =>
      -- d->RequestTime.start(); d->RequestTimer->start(static_cast<int>(msecsBeforeRender));
      { d with
        RequestTime := some currentTime
        RequestTimer := some (staticCastInt (stillModeReset msecs)) }
    | some requestTime =>
      -- d->RequestTime.elapsed() > msecsBeforeRender
      if MSecs.ltInt msecs (currentTime - requestTime) then
        forceRender d false isVisible
      else
        d

/-- `ctkVTKOpenVRAbstractView::scheduleRender()` with the quotient computed exactly:
`DesiredUpdateRate` is the value of `d->RenderWindow->GetDesiredUpdateRate()` and the
local `msecsBeforeRender` holds `100 / DesiredUpdateRate` without rounding. -/
def scheduleRender (d : ctkVTKOpenVRAbstractViewPrivate) (DesiredUpdateRate : ℚ)
    (InPaintEvent : Bool) (isVisible : Bool) (currentTime : Int) :
    ctkVTKOpenVRAbstractViewPrivate :=
  scheduleRenderAt d (msecsBeforeRender DesiredUpdateRate) InPaintEvent isVisible currentTime

/-- `CTK_SET_CPP(ctkVTKOpenVRAbstractView, bool, setRenderEnabled, RenderEnabled)`. -/
def setRenderEnabled (d : ctkVTKOpenVRAbstractViewPrivate) (newRenderEnabled : Bool) :
    ctkVTKOpenVRAbstractViewPrivate :=
  { d with RenderEnabled := newRenderEnabled }

/-- `CTK_GET_CPP(ctkVTKOpenVRAbstractView, bool, renderEnabled, RenderEnabled)`. -/
def renderEnabled (d : ctkVTKOpenVRAbstractViewPrivate) : Bool :=
  d.RenderEnabled

/-- One `scheduleRender()` call together with what it reads from its collaborators. -/
structure RenderRequest where
  DesiredUpdateRate : ℚ
  InPaintEvent : Bool
  isVisible : Bool
  currentTime : Int

/-- A finite sequence of `scheduleRender()` calls, performed one after the other. -/
def scheduleRenders (d : ctkVTKOpenVRAbstractViewPrivate) (requests : List RenderRequest) :
    ctkVTKOpenVRAbstractViewPrivate :=
  requests.foldl
    (fun s r => scheduleRender s r.DesiredUpdateRate r.InPaintEvent r.isVisible r.currentTime) d

/-- A finite sequence of `forceRender()` calls delivered by `RequestTimer`, one for each
entry of `visibilities` (the value of `isVisible()` during that call). -/
def timerCallbacks (d : ctkVTKOpenVRAbstractViewPrivate) (visibilities : List Bool) :
    ctkVTKOpenVRAbstractViewPrivate :=
  visibilities.foldl (fun s v => forceRender s true v) d

/-- An enabled view right after construction: nothing pending, timer stopped. -/
def exampleIdle : ctkVTKOpenVRAbstractViewPrivate := init

/-- An enabled view with a render pending since t = 0 and the timer armed for 10 ms. -/
def examplePending : ctkVTKOpenVRAbstractViewPrivate :=
  { init with RequestTimer := some 10, RequestTime := some 0 }

/-- A disabled view with a render pending since t = 0, the timer armed for 10 ms and 4
renders performed so far. -/
def examplePendingDisabled : ctkVTKOpenVRAbstractViewPrivate :=
  { init with RequestTimer := some 10, RequestTime := some 0, RenderEnabled := false,
              Renders := 4 }

/-- One thing that can happen to the throttle: a `scheduleRender()` call (of either
origin), a direct `forceRender()` call, an expiry of `RequestTimer` (delivered as
`forceRender()` with the timer as sender), or a `setRenderEnabled()` call.  Every call
carries the visibility it observes, so visibility changes between calls are covered. -/
inductive ThrottleEvent where
  | scheduleRender (DesiredUpdateRate : ℚ) (InPaintEvent isVisible : Bool) (currentTime : Int)
  | forceRender (isVisible : Bool)
  | requestTimerTimeout (isVisible : Bool)
  | setRenderEnabled (newRenderEnabled : Bool)

/-- The desired update rate read by the event, if it reads one, is positive. -/
def ThrottleEvent.positiveRate : ThrottleEvent → Prop
  | ThrottleEvent.scheduleRender rate _ _ _ => 0 < rate
  | _ => True

/-- Effect of one event on the private state. -/
def applyEvent (d : ctkVTKOpenVRAbstractViewPrivate) :
    ThrottleEvent → ctkVTKOpenVRAbstractViewPrivate
  | ThrottleEvent.scheduleRender rate paint vis now => scheduleRender d rate paint vis now
  | ThrottleEvent.forceRender vis => forceRender d false vis
  | ThrottleEvent.requestTimerTimeout vis => forceRender d true vis
  | ThrottleEvent.setRenderEnabled b => setRenderEnabled d b

/-- Effect of a finite sequence of events, performed one after the other. -/
def applyEvents (d : ctkVTKOpenVRAbstractViewPrivate) (events : List ThrottleEvent) :
    ctkVTKOpenVRAbstractViewPrivate :=
  events.foldl applyEvent d

/-- The pending marker is set exactly when `RequestTimer` is armed. -/
def pendingIffArmed (d : ctkVTKOpenVRAbstractViewPrivate) : Prop :=
  d.RequestTime.isSome = true ↔ d.RequestTimer.isSome = true

/-! ## Camera conveniences of `ctkVTKOpenVRRenderView`

Embedding of `Libs/Visualization/VTK/Widgets/ctkVTKOpenVRRenderView.cpp`.  The camera
is an object of the rendering library and is not part of the state: the private
rotation helpers are represented by their assertions and by the signed angle they hand
to the camera.  `Q_ASSERT` is taken as active (debug build); a failed assertion and an
integer division by zero abort the call.  `IsActiveCameraCreated` is the value of
`Renderer->IsActiveCameraCreated()` read by the call.  The deferred invocations made
with `QTimer::singleShot` are not tracked: `doSpin` and `doRock` ticks may occur at any
time. -/

/-- The enumerators of `ctkVTKOpenVRRenderView::RotateDirection` named by the sources. -/
inductive RotateDirection where
  | PitchUp
  | PitchDown
  | RollLeft
  | RollRight
  | YawLeft
  | YawRight
  deriving DecidableEq

/-- Ways in which a call aborts. -/
inductive Failure where
  /-- `Q_ASSERT(this->Renderer->IsActiveCameraCreated())` failed. -/
  | activeCameraAssertion
  /-- `Q_ASSERT(rotateDegrees >= 0)` failed. -/
  | rotateDegreesAssertion
  /-- An `int` remainder was computed with a zero divisor. -/
  | divisionByZero
  deriving DecidableEq

/-- Qt's `qAbs(t)`, which is `t >= 0 ? t : -t`. -/
def qAbs {α : Type} [LinearOrderedRing α] (t : α) : α :=
  if 0 ≤ t then t else -t

/-- Qt's `qBound(min, val, max)`, which is `qMax(min, qMin(max, val))`. -/
def qBound (min val max : ℚ) : ℚ :=
  Max.max min (Min.min max val)

/-- State of `ctkVTKOpenVRRenderViewPrivate`, which extends the private state of the
abstract view. -/
structure ctkVTKOpenVRRenderViewPrivate extends ctkVTKOpenVRAbstractViewPrivate where
  ZoomFactor : ℚ
  PitchRollYawIncrement : ℚ
  PitchDirection : RotateDirection
  RollDirection : RotateDirection
  YawDirection : RotateDirection
  SpinDirection : RotateDirection
  SpinEnabled : Bool
  AnimationIntervalMs : Int
  SpinIncrement : ℚ
  RockEnabled : Bool
  RockIncrement : Int
  RockLength : Int

/-- `ctkVTKOpenVRRenderViewPrivate::pitch(rotateDegrees, pitchDirection)`: the angle
passed to `cam->Elevation`. -/
def ctkVTKOpenVRRenderViewPrivate.pitch (IsActiveCameraCreated : Bool) (rotateDegrees : ℚ)
    (pitchDirection : RotateDirection) : Except Failure ℚ :=
  if !IsActiveCameraCreated then
    Except.error Failure.activeCameraAssertion
  else if ¬ (0 ≤ rotateDegrees) then
    Except.error Failure.rotateDegreesAssertion
  else
    Except.ok (if pitchDirection = RotateDirection.PitchDown then rotateDegrees
      else -rotateDegrees)

/-- `ctkVTKOpenVRRenderViewPrivate::roll(rotateDegrees, rollDirection)`: the angle
passed to `cam->Roll`. -/
def ctkVTKOpenVRRenderViewPrivate.roll (IsActiveCameraCreated : Bool) (rotateDegrees : ℚ)
    (rollDirection : RotateDirection) : Except Failure ℚ :=
  if !IsActiveCameraCreated then
    Except.error Failure.activeCameraAssertion
  else if ¬ (0 ≤ rotateDegrees) then
    Except.error Failure.rotateDegreesAssertion
  else
    Except.ok (if rollDirection = RotateDirection.RollLeft then rotateDegrees
      else -rotateDegrees)

/-- `ctkVTKOpenVRRenderViewPrivate::yaw(rotateDegrees, yawDirection)`: the angle passed
to `cam->Azimuth`. -/
def ctkVTKOpenVRRenderViewPrivate.yaw (IsActiveCameraCreated : Bool) (rotateDegrees : ℚ)
    (yawDirection : RotateDirection) : Except Failure ℚ :=
  if !IsActiveCameraCreated then
    Except.error Failure.activeCameraAssertion
  else if ¬ (0 ≤ rotateDegrees) then
    Except.error Failure.rotateDegreesAssertion
  else
    Except.ok (if yawDirection = RotateDirection.YawLeft then rotateDegrees
      else -rotateDegrees)

/-- The `switch (this->SpinDirection)` of `doSpin()`: the rotation helper selected by
the spin direction, called with `SpinIncrement`. -/
def ctkVTKOpenVRRenderViewPrivate.spinRotation (d : ctkVTKOpenVRRenderViewPrivate)
    (IsActiveCameraCreated : Bool) : Except Failure ℚ :=
  match d.SpinDirection with
  | RotateDirection.PitchUp | RotateDirection.PitchDown =>
    ctkVTKOpenVRRenderViewPrivate.pitch IsActiveCameraCreated d.SpinIncrement d.SpinDirection
  | RotateDirection.RollLeft | RotateDirection.RollRight =>
    ctkVTKOpenVRRenderViewPrivate.roll IsActiveCameraCreated d.SpinIncrement d.SpinDirection
  | RotateDirection.YawLeft | RotateDirection.YawRight =>
    ctkVTKOpenVRRenderViewPrivate.yaw IsActiveCameraCreated d.SpinIncrement d.SpinDirection

/-- `ctkVTKOpenVRRenderViewPrivate::doSpin()`. -/
def ctkVTKOpenVRRenderViewPrivate.doSpin (d : ctkVTKOpenVRRenderViewPrivate)
    (IsActiveCameraCreated isVisible : Bool) : Except Failure ctkVTKOpenVRRenderViewPrivate :=
  if !d.SpinEnabled then
    Except.ok d
  else
    match ctkVTKOpenVRRenderViewPrivate.spinRotation d IsActiveCameraCreated with
    | Except.error e => Except.error e
    | Except.ok _ =>
      -- q->forceRender();
      let base := forceRender d.toctkVTKOpenVRAbstractViewPrivate false isVisible
      Except.ok { d with toctkVTKOpenVRAbstractViewPrivate := base }

/-- `ctkVTKOpenVRRenderViewPrivate::doRock()`.  The quotient `frac` is a `double`
division and only feeds the camera angle; the statement
`RockIncrement = RockIncrement % RockLength` is an `int` remainder, undefined for a zero
`RockLength`. -/
def ctkVTKOpenVRRenderViewPrivate.doRock (d : ctkVTKOpenVRRenderViewPrivate)
    (IsActiveCameraCreated isVisible : Bool) : Except Failure ctkVTKOpenVRRenderViewPrivate :=
  if !IsActiveCameraCreated then
    Except.error Failure.activeCameraAssertion
  else if !d.RockEnabled then
    Except.ok d
  else if d.RockLength = 0 then
    Except.error Failure.divisionByZero
  else
    -- this->RockIncrement++; this->RockIncrement = this->RockIncrement % this->RockLength;
    -- q->forceRender();
    let base := forceRender d.toctkVTKOpenVRAbstractViewPrivate false isVisible
    Except.ok { d with
      toctkVTKOpenVRAbstractViewPrivate := base,
      RockIncrement := Int.tmod (d.RockIncrement + 1) d.RockLength }

/-- State after the constructor of `ctkVTKOpenVRRenderView`: the private constructor
followed by `d->init()`. -/
def ctkVTKOpenVRRenderView.construct : ctkVTKOpenVRRenderViewPrivate :=
  { toctkVTKOpenVRAbstractViewPrivate := init
    ZoomFactor := 5 / 100
    PitchRollYawIncrement := 5
    PitchDirection := RotateDirection.PitchUp
    RollDirection := RotateDirection.RollRight
    YawDirection := RotateDirection.YawLeft
    SpinDirection := RotateDirection.YawRight
    SpinEnabled := false
    AnimationIntervalMs := 5
    SpinIncrement := 2
    RockEnabled := false
    RockIncrement := 0
    RockLength := 200 }

/-- `ctkVTKOpenVRRenderView::setPitchRollYawIncrement`. -/
def ctkVTKOpenVRRenderView.setPitchRollYawIncrement (d : ctkVTKOpenVRRenderViewPrivate)
    (newPitchRollYawIncrement : ℚ) : ctkVTKOpenVRRenderViewPrivate :=
  { d with PitchRollYawIncrement := qAbs newPitchRollYawIncrement }

/-- `ctkVTKOpenVRRenderView::setPitchDirection`. -/
def ctkVTKOpenVRRenderView.setPitchDirection (d : ctkVTKOpenVRRenderViewPrivate)
    (newPitchDirection : RotateDirection) : ctkVTKOpenVRRenderViewPrivate :=
  if newPitchDirection ≠ RotateDirection.PitchUp ∧
      newPitchDirection ≠ RotateDirection.PitchDown then
    d
  else
    { d with PitchDirection := newPitchDirection }

/-- `ctkVTKOpenVRRenderView::setRollDirection`. -/
def ctkVTKOpenVRRenderView.setRollDirection (d : ctkVTKOpenVRRenderViewPrivate)
    (newRollDirection : RotateDirection) : ctkVTKOpenVRRenderViewPrivate :=
  if newRollDirection ≠ RotateDirection.RollLeft ∧
      newRollDirection ≠ RotateDirection.RollRight then
    d
  else
    { d with RollDirection := newRollDirection }

/-- `ctkVTKOpenVRRenderView::setYawDirection`. -/
def ctkVTKOpenVRRenderView.setYawDirection (d : ctkVTKOpenVRRenderViewPrivate)
    (newYawDirection : RotateDirection) : ctkVTKOpenVRRenderViewPrivate :=
  if newYawDirection ≠ RotateDirection.YawLeft ∧
      newYawDirection ≠ RotateDirection.YawRight then
    d
  else
    { d with YawDirection := newYawDirection }

/-- `CTK_SET_CPP(ctkVTKOpenVRRenderView, RotateDirection, setSpinDirection, SpinDirection)`. -/
def ctkVTKOpenVRRenderView.setSpinDirection (d : ctkVTKOpenVRRenderViewPrivate)
    (newSpinDirection : RotateDirection) : ctkVTKOpenVRRenderViewPrivate :=
  { d with SpinDirection := newSpinDirection }

/-- `ctkVTKOpenVRRenderView::pitch()`. -/
def ctkVTKOpenVRRenderView.pitch (d : ctkVTKOpenVRRenderViewPrivate)
    (IsActiveCameraCreated : Bool) : Except Failure ctkVTKOpenVRRenderViewPrivate :=
  if !IsActiveCameraCreated then
    Except.ok d
  else
    match ctkVTKOpenVRRenderViewPrivate.pitch IsActiveCameraCreated d.PitchRollYawIncrement
        d.PitchDirection with
    | Except.error e => Except.error e
    | Except.ok _ => Except.ok d

/-- `ctkVTKOpenVRRenderView::roll()`. -/
def ctkVTKOpenVRRenderView.roll (d : ctkVTKOpenVRRenderViewPrivate)
    (IsActiveCameraCreated : Bool) : Except Failure ctkVTKOpenVRRenderViewPrivate :=
  if !IsActiveCameraCreated then
    Except.ok d
  else
    match ctkVTKOpenVRRenderViewPrivate.roll IsActiveCameraCreated d.PitchRollYawIncrement
        d.RollDirection with
    | Except.error e => Except.error e
    | Except.ok _ => Except.ok d

/-- `ctkVTKOpenVRRenderView::yaw()`. -/
def ctkVTKOpenVRRenderView.yaw (d : ctkVTKOpenVRRenderViewPrivate)
    (IsActiveCameraCreated : Bool) : Except Failure ctkVTKOpenVRRenderViewPrivate :=
  if !IsActiveCameraCreated then
    Except.ok d
  else
    match ctkVTKOpenVRRenderViewPrivate.yaw IsActiveCameraCreated d.PitchRollYawIncrement
        d.YawDirection with
    | Except.error e => Except.error e
    | Except.ok _ => Except.ok d

/-- `ctkVTKOpenVRRenderView::setSpinEnabled`. -/
def ctkVTKOpenVRRenderView.setSpinEnabled (d : ctkVTKOpenVRRenderViewPrivate)
    (enabled : Bool) : ctkVTKOpenVRRenderViewPrivate :=
  if enabled = d.SpinEnabled then
    d
  else
    { d with SpinEnabled := enabled, RockEnabled := false }

/-- `ctkVTKOpenVRRenderView::setSpinIncrement`. -/
def ctkVTKOpenVRRenderView.setSpinIncrement (d : ctkVTKOpenVRRenderViewPrivate)
    (newSpinIncrement : ℚ) : ctkVTKOpenVRRenderViewPrivate :=
  { d with SpinIncrement := qAbs newSpinIncrement }

/-- `ctkVTKOpenVRRenderView::setAnimationIntervalMs`. -/
def ctkVTKOpenVRRenderView.setAnimationIntervalMs (d : ctkVTKOpenVRRenderViewPrivate)
    (newAnimationIntervalMs : Int) : ctkVTKOpenVRRenderViewPrivate :=
  { d with AnimationIntervalMs := qAbs newAnimationIntervalMs }

/-- `ctkVTKOpenVRRenderView::setRockEnabled`. -/
def ctkVTKOpenVRRenderView.setRockEnabled (d : ctkVTKOpenVRRenderViewPrivate)
    (enabled : Bool) : ctkVTKOpenVRRenderViewPrivate :=
  if enabled = d.RockEnabled then
    d
  else
    { d with RockEnabled := enabled, SpinEnabled := false }

/-- `ctkVTKOpenVRRenderView::setRockLength`. -/
def ctkVTKOpenVRRenderView.setRockLength (d : ctkVTKOpenVRRenderViewPrivate)
    (newRockLength : Int) : ctkVTKOpenVRRenderViewPrivate :=
  { d with RockLength := qAbs newRockLength }

/-- `ctkVTKOpenVRRenderView::setRockIncrement`. -/
def ctkVTKOpenVRRenderView.setRockIncrement (d : ctkVTKOpenVRRenderViewPrivate)
    (newRockIncrement : Int) : ctkVTKOpenVRRenderViewPrivate :=
  { d with RockIncrement := qAbs newRockIncrement }

/-- `ctkVTKOpenVRRenderView::setZoomFactor`. -/
def ctkVTKOpenVRRenderView.setZoomFactor (d : ctkVTKOpenVRRenderViewPrivate)
    (newZoomFactor : ℚ) : ctkVTKOpenVRRenderViewPrivate :=
  { d with ZoomFactor := qBound 0 (qAbs newZoomFactor) 1 }

/-- One call on a `ctkVTKOpenVRRenderView`: a public setter, a public rotation, a tick
of one of the private animation slots, or an event of the inherited render throttle,
with what the call reads from its collaborators. -/
inductive RenderViewCall where
  | setPitchRollYawIncrement (newPitchRollYawIncrement : ℚ)
  | setPitchDirection (newPitchDirection : RotateDirection)
  | setRollDirection (newRollDirection : RotateDirection)
  | setYawDirection (newYawDirection : RotateDirection)
  | setSpinDirection (newSpinDirection : RotateDirection)
  | pitch (IsActiveCameraCreated : Bool)
  | roll (IsActiveCameraCreated : Bool)
  | yaw (IsActiveCameraCreated : Bool)
  | setSpinEnabled (enabled : Bool)
  | setSpinIncrement (newSpinIncrement : ℚ)
  | setAnimationIntervalMs (newAnimationIntervalMs : Int)
  | setRockEnabled (enabled : Bool)
  | setRockLength (newRockLength : Int)
  | setRockIncrement (newRockIncrement : Int)
  | setZoomFactor (newZoomFactor : ℚ)
  | doSpin (IsActiveCameraCreated isVisible : Bool)
  | doRock (IsActiveCameraCreated isVisible : Bool)
  | throttle (event : ThrottleEvent)

/-- Effect of one call; `Except.error` when the call aborts. -/
def performCall (d : ctkVTKOpenVRRenderViewPrivate) :
    RenderViewCall → Except Failure ctkVTKOpenVRRenderViewPrivate
  | RenderViewCall.setPitchRollYawIncrement x =>
    Except.ok (ctkVTKOpenVRRenderView.setPitchRollYawIncrement d x)
  | RenderViewCall.setPitchDirection x =>
    Except.ok (ctkVTKOpenVRRenderView.setPitchDirection d x)
  | RenderViewCall.setRollDirection x =>
    Except.ok (ctkVTKOpenVRRenderView.setRollDirection d x)
  | RenderViewCall.setYawDirection x =>
    Except.ok (ctkVTKOpenVRRenderView.setYawDirection d x)
  | RenderViewCall.setSpinDirection x =>
    Except.ok (ctkVTKOpenVRRenderView.setSpinDirection d x)
  | RenderViewCall.pitch cam => ctkVTKOpenVRRenderView.pitch d cam
  | RenderViewCall.roll cam => ctkVTKOpenVRRenderView.roll d cam
  | RenderViewCall.yaw cam => ctkVTKOpenVRRenderView.yaw d cam
  | RenderViewCall.setSpinEnabled enabled =>
    Except.ok (ctkVTKOpenVRRenderView.setSpinEnabled d enabled)
  | RenderViewCall.setSpinIncrement x =>
    Except.ok (ctkVTKOpenVRRenderView.setSpinIncrement d x)
  | RenderViewCall.setAnimationIntervalMs n =>
    Except.ok (ctkVTKOpenVRRenderView.setAnimationIntervalMs d n)
  | RenderViewCall.setRockEnabled enabled =>
    Except.ok (ctkVTKOpenVRRenderView.setRockEnabled d enabled)
  | RenderViewCall.setRockLength n =>
    Except.ok (ctkVTKOpenVRRenderView.setRockLength d n)
  | RenderViewCall.setRockIncrement n =>
    Except.ok (ctkVTKOpenVRRenderView.setRockIncrement d n)
  | RenderViewCall.setZoomFactor x =>
    Except.ok (ctkVTKOpenVRRenderView.setZoomFactor d x)
  | RenderViewCall.doSpin cam vis => ctkVTKOpenVRRenderViewPrivate.doSpin d cam vis
  | RenderViewCall.doRock cam vis => ctkVTKOpenVRRenderViewPrivate.doRock d cam vis
  | RenderViewCall.throttle event =>
    let base := applyEvent d.toctkVTKOpenVRAbstractViewPrivate event
    Except.ok { d with toctkVTKOpenVRAbstractViewPrivate := base }

/-- Effect of a finite sequence of calls, performed one after the other and stopping at
the first call that aborts. -/
def performCalls (d : ctkVTKOpenVRRenderViewPrivate) :
    List RenderViewCall → Except Failure ctkVTKOpenVRRenderViewPrivate
  | [] => Except.ok d
  | c :: cs =>
    match performCall d c with
    | Except.error e => Except.error e
    | Except.ok d1 => performCalls d1 cs

/-- Spin and rock are not both enabled. -/
def spinRockExclusive (d : ctkVTKOpenVRRenderViewPrivate) : Prop :=
  ¬ (d.SpinEnabled = true ∧ d.RockEnabled = true)

/-- Both rotation increments are nonnegative. -/
def incrementsNonneg (d : ctkVTKOpenVRRenderViewPrivate) : Prop :=
  0 ≤ d.PitchRollYawIncrement ∧ 0 ≤ d.SpinIncrement

/-- Each of the three stored directions belongs to its own axis. -/
def directionsOnAxis (d : ctkVTKOpenVRRenderViewPrivate) : Prop :=
  (d.PitchDirection = RotateDirection.PitchUp ∨
    d.PitchDirection = RotateDirection.PitchDown) ∧
  (d.RollDirection = RotateDirection.RollLeft ∨
    d.RollDirection = RotateDirection.RollRight) ∧
  (d.YawDirection = RotateDirection.YawLeft ∨
    d.YawDirection = RotateDirection.YawRight)

/-- The view after `setSpinEnabled(true)` followed by `setRockEnabled(true)`: rocking,
not spinning. -/
def exampleRocking : ctkVTKOpenVRRenderViewPrivate :=
  { ctkVTKOpenVRRenderView.construct with SpinEnabled := false, RockEnabled := true }

/-- The view after `setPitchRollYawIncrement(-3)` and `setSpinIncrement(-4)`. -/
def exampleIncrements : ctkVTKOpenVRRenderViewPrivate :=
  ctkVTKOpenVRRenderView.setSpinIncrement
    (ctkVTKOpenVRRenderView.setPitchRollYawIncrement ctkVTKOpenVRRenderView.construct (-3)) (-4)

/-- The view after `setPitchDirection(PitchDown)` and a rejected
`setRollDirection(YawLeft)`. -/
def exampleDirections : ctkVTKOpenVRRenderViewPrivate :=
  { ctkVTKOpenVRRenderView.construct with PitchDirection := RotateDirection.PitchDown }

/-! ## Basic facts about one call -/

theorem scheduleRender_disabled (d : ctkVTKOpenVRAbstractViewPrivate) (rate : ℚ)
    (paint vis : Bool) (now : Int) (h : d.RenderEnabled = false) :
    scheduleRender d rate paint vis now = d := by
  simp [scheduleRender, scheduleRenderAt, h]

theorem scheduleRenders_disabled (d : ctkVTKOpenVRAbstractViewPrivate)
    (h : d.RenderEnabled = false) (requests : List RenderRequest) :
    scheduleRenders d requests = d := by
  induction requests with
  | nil => rfl
  | cons r rs ih =>
    simp only [scheduleRenders, List.foldl_cons] at ih ⊢
    rw [scheduleRender_disabled d _ _ _ _ h]
    exact ih

theorem msecsBeforeRender_of_ne_zero (rate : ℚ) (h : rate ≠ 0) :
    msecsBeforeRender rate = MSecs.finite (100 / rate) := by
  simp [msecsBeforeRender, h]

theorem stillModeReset_of_gt (rate : ℚ) (h0 : rate ≠ 0) (h : 10000 < 100 / rate) :
    stillModeReset (msecsBeforeRender rate) = 0 := by
  simp [msecsBeforeRender_of_ne_zero rate h0, stillModeReset, MSecs.gt, h]

theorem scheduleRender_nothing_pending (d : ctkVTKOpenVRAbstractViewPrivate) (rate : ℚ)
    (vis : Bool) (now : Int) (he : d.RenderEnabled = true) (hp : d.RequestTime = none) :
    scheduleRender d rate false vis now =
      { d with
        RequestTime := some now
        RequestTimer := some (staticCastInt (stillModeReset (msecsBeforeRender rate))) } := by
  simp [scheduleRender, scheduleRenderAt, he, hp]

theorem scheduleRender_pending (d : ctkVTKOpenVRAbstractViewPrivate) (rate : ℚ)
    (vis : Bool) (now t0 : Int) (he : d.RenderEnabled = true) (hp : d.RequestTime = some t0) :
    scheduleRender d rate false vis now =
      if MSecs.ltInt (msecsBeforeRender rate) (now - t0) then forceRender d false vis else d := by
  simp [scheduleRender, scheduleRenderAt, he, hp]

theorem forceRender_stale (d : ctkVTKOpenVRAbstractViewPrivate) (vis : Bool)
    (hp : d.RequestTime = none) : forceRender d true vis = d := by
  simp [forceRender, hp]

theorem timerCallbacks_stale (d : ctkVTKOpenVRAbstractViewPrivate)
    (hp : d.RequestTime = none) (visibilities : List Bool) :
    timerCallbacks d visibilities = d := by
  induction visibilities with
  | nil => rfl
  | cons v vs ih =>
    simp only [timerCallbacks, List.foldl_cons] at ih ⊢
    rw [forceRender_stale d v hp]
    exact ih

theorem forceRender_pendingIffArmed (d : ctkVTKOpenVRAbstractViewPrivate)
    (sender vis : Bool) (h : pendingIffArmed d) :
    pendingIffArmed (forceRender d sender vis) := by
  unfold pendingIffArmed at h ⊢
  cases sender <;> cases vis <;> cases hrt : d.RequestTime <;>
    cases he : d.RenderEnabled <;> simp_all [forceRender]

theorem scheduleRender_pendingIffArmed (d : ctkVTKOpenVRAbstractViewPrivate) (rate : ℚ)
    (paint vis : Bool) (now : Int) (h : pendingIffArmed d) :
    pendingIffArmed (scheduleRender d rate paint vis now) := by
  unfold scheduleRender scheduleRenderAt
  by_cases he : d.RenderEnabled = true
  · cases paint
    · cases hrt : d.RequestTime with
      | none => simp [he, pendingIffArmed]
      | some t0 =>
        simp only [he, Bool.not_true, Bool.false_eq_true, if_false]
        split
        · exact forceRender_pendingIffArmed d false vis h
        · exact h
    · simpa [he] using forceRender_pendingIffArmed d false vis h
  · simpa [he] using h

theorem applyEvent_pendingIffArmed (d : ctkVTKOpenVRAbstractViewPrivate)
    (e : ThrottleEvent) (h : pendingIffArmed d) : pendingIffArmed (applyEvent d e) := by
  cases e with
  | scheduleRender rate paint vis now =>
    exact scheduleRender_pendingIffArmed d rate paint vis now h
  | forceRender vis => exact forceRender_pendingIffArmed d false vis h
  | requestTimerTimeout vis => exact forceRender_pendingIffArmed d true vis h
  | setRenderEnabled b => exact h

theorem applyEvents_pendingIffArmed (events : List ThrottleEvent)
    (d : ctkVTKOpenVRAbstractViewPrivate) (h : pendingIffArmed d) :
    pendingIffArmed (applyEvents d events) := by
  induction events generalizing d with
  | nil => exact h
  | cons e es ih =>
    simp only [applyEvents, List.foldl_cons]
    exact ih (applyEvent d e) (applyEvent_pendingIffArmed d e h)

theorem scheduleRender_pending_within_interval (d : ctkVTKOpenVRAbstractViewPrivate)
    (r : ℚ) (vis : Bool) (t t0 : Int) (he : d.RenderEnabled = true)
    (hp : d.RequestTime = some t0) (hle : r = 0 ∨ ((t - t0 : Int) : ℚ) ≤ 100 / r) :
    scheduleRender d r false vis t = d := by
  rw [scheduleRender_pending d r vis t t0 he hp]
  by_cases h0 : r = 0
  · simp [msecsBeforeRender, h0, MSecs.ltInt]
  · have hq := hle.resolve_left h0
    rw [Int.cast_sub] at hq
    simp [msecsBeforeRender, h0, MSecs.ltInt, not_lt.mpr hq]

theorem qAbs_nonneg {α : Type} [LinearOrderedRing α] (t : α) : 0 ≤ qAbs t := by
  unfold qAbs
  split
  · assumption
  · exact neg_nonneg.mpr (le_of_lt (not_le.mp ‹_›))

theorem renderView_pitch_ok (d d1 : ctkVTKOpenVRRenderViewPrivate) (cam : Bool)
    (h : ctkVTKOpenVRRenderView.pitch d cam = Except.ok d1) : d1 = d := by
  unfold ctkVTKOpenVRRenderView.pitch at h
  split at h
  · exact (Except.ok.inj h).symm
  · split at h
    · cases h
    · exact (Except.ok.inj h).symm

theorem renderView_roll_ok (d d1 : ctkVTKOpenVRRenderViewPrivate) (cam : Bool)
    (h : ctkVTKOpenVRRenderView.roll d cam = Except.ok d1) : d1 = d := by
  unfold ctkVTKOpenVRRenderView.roll at h
  split at h
  · exact (Except.ok.inj h).symm
  · split at h
    · cases h
    · exact (Except.ok.inj h).symm

theorem renderView_yaw_ok (d d1 : ctkVTKOpenVRRenderViewPrivate) (cam : Bool)
    (h : ctkVTKOpenVRRenderView.yaw d cam = Except.ok d1) : d1 = d := by
  unfold ctkVTKOpenVRRenderView.yaw at h
  split at h
  · exact (Except.ok.inj h).symm
  · split at h
    · cases h
    · exact (Except.ok.inj h).symm

theorem doSpin_ok (d d1 : ctkVTKOpenVRRenderViewPrivate) (cam vis : Bool)
    (h : ctkVTKOpenVRRenderViewPrivate.doSpin d cam vis = Except.ok d1) :
    d1 = d ∨ d1 = { d with
      toctkVTKOpenVRAbstractViewPrivate :=
        forceRender d.toctkVTKOpenVRAbstractViewPrivate false vis } := by
  unfold ctkVTKOpenVRRenderViewPrivate.doSpin at h
  split at h
  · exact Or.inl (Except.ok.inj h).symm
  · split at h
    · cases h
    · exact Or.inr (Except.ok.inj h).symm

theorem doRock_ok (d d1 : ctkVTKOpenVRRenderViewPrivate) (cam vis : Bool)
    (h : ctkVTKOpenVRRenderViewPrivate.doRock d cam vis = Except.ok d1) :
    d1 = d ∨ d1 = { d with
      toctkVTKOpenVRAbstractViewPrivate :=
        forceRender d.toctkVTKOpenVRAbstractViewPrivate false vis,
      RockIncrement := Int.tmod (d.RockIncrement + 1) d.RockLength } := by
  unfold ctkVTKOpenVRRenderViewPrivate.doRock at h
  split at h
  · cases h
  · split at h
    · exact Or.inl (Except.ok.inj h).symm
    · split at h
      · cases h
      · exact Or.inr (Except.ok.inj h).symm

theorem performCalls_preserves (P : ctkVTKOpenVRRenderViewPrivate → Prop)
    (hstep : ∀ d c d1, P d → performCall d c = Except.ok d1 → P d1)
    (calls : List RenderViewCall) (d d1 : ctkVTKOpenVRRenderViewPrivate) (hd : P d)
    (h : performCalls d calls = Except.ok d1) : P d1 := by
  induction calls generalizing d with
  | nil =>
    simp only [performCalls] at h
    exact (Except.ok.inj h) ▸ hd
  | cons c cs ih =>
    simp only [performCalls] at h
    split at h
    · cases h
    · rename_i d2 hc
      exact ih d2 (hstep d c d2 hd hc) h

theorem performCall_spinRockExclusive (d : ctkVTKOpenVRRenderViewPrivate)
    (c : RenderViewCall) (d1 : ctkVTKOpenVRRenderViewPrivate) (hd : spinRockExclusive d)
    (h : performCall d c = Except.ok d1) : spinRockExclusive d1 := by
  cases c with
  | pitch cam => rw [renderView_pitch_ok d d1 cam h]; exact hd
  | roll cam => rw [renderView_roll_ok d d1 cam h]; exact hd
  | yaw cam => rw [renderView_yaw_ok d d1 cam h]; exact hd
  | doSpin cam vis => rcases doSpin_ok d d1 cam vis h with h1 | h1 <;> (rw [h1]; exact hd)
  | doRock cam vis => rcases doRock_ok d d1 cam vis h with h1 | h1 <;> (rw [h1]; exact hd)
  | setSpinEnabled e =>
    have h1 := (Except.ok.inj h).symm
    subst h1
    unfold spinRockExclusive at hd ⊢
    unfold ctkVTKOpenVRRenderView.setSpinEnabled
    split
    · exact hd
    · simp
  | setRockEnabled e =>
    have h1 := (Except.ok.inj h).symm
    subst h1
    unfold spinRockExclusive at hd ⊢
    unfold ctkVTKOpenVRRenderView.setRockEnabled
    split
    · exact hd
    · simp
  | setPitchDirection x =>
    have h1 := (Except.ok.inj h).symm
    subst h1
    unfold ctkVTKOpenVRRenderView.setPitchDirection
    split <;> exact hd
  | setRollDirection x =>
    have h1 := (Except.ok.inj h).symm
    subst h1
    unfold ctkVTKOpenVRRenderView.setRollDirection
    split <;> exact hd
  | setYawDirection x =>
    have h1 := (Except.ok.inj h).symm
    subst h1
    unfold ctkVTKOpenVRRenderView.setYawDirection
    split <;> exact hd
  | _ =>
    have h1 := (Except.ok.inj h).symm
    subst h1
    exact hd

theorem performCall_incrementsNonneg (d : ctkVTKOpenVRRenderViewPrivate)
    (c : RenderViewCall) (d1 : ctkVTKOpenVRRenderViewPrivate) (hd : incrementsNonneg d)
    (h : performCall d c = Except.ok d1) : incrementsNonneg d1 := by
  cases c with
  | pitch cam => rw [renderView_pitch_ok d d1 cam h]; exact hd
  | roll cam => rw [renderView_roll_ok d d1 cam h]; exact hd
  | yaw cam => rw [renderView_yaw_ok d d1 cam h]; exact hd
  | doSpin cam vis => rcases doSpin_ok d d1 cam vis h with h1 | h1 <;> (rw [h1]; exact hd)
  | doRock cam vis => rcases doRock_ok d d1 cam vis h with h1 | h1 <;> (rw [h1]; exact hd)
  | setPitchRollYawIncrement x =>
    have h1 := (Except.ok.inj h).symm
    subst h1
    exact ⟨qAbs_nonneg x, hd.2⟩
  | setSpinIncrement x =>
    have h1 := (Except.ok.inj h).symm
    subst h1
    exact ⟨hd.1, qAbs_nonneg x⟩
  | setSpinEnabled e =>
    have h1 := (Except.ok.inj h).symm
    subst h1
    unfold ctkVTKOpenVRRenderView.setSpinEnabled
    split <;> exact hd
  | setRockEnabled e =>
    have h1 := (Except.ok.inj h).symm
    subst h1
    unfold ctkVTKOpenVRRenderView.setRockEnabled
    split <;> exact hd
  | setPitchDirection x =>
    have h1 := (Except.ok.inj h).symm
    subst h1
    unfold ctkVTKOpenVRRenderView.setPitchDirection
    split <;> exact hd
  | setRollDirection x =>
    have h1 := (Except.ok.inj h).symm
    subst h1
    unfold ctkVTKOpenVRRenderView.setRollDirection
    split <;> exact hd
  | setYawDirection x =>
    have h1 := (Except.ok.inj h).symm
    subst h1
    unfold ctkVTKOpenVRRenderView.setYawDirection
    split <;> exact hd
  | _ =>
    have h1 := (Except.ok.inj h).symm
    subst h1
    exact hd

theorem performCall_directionsOnAxis (d : ctkVTKOpenVRRenderViewPrivate)
    (c : RenderViewCall) (d1 : ctkVTKOpenVRRenderViewPrivate) (hd : directionsOnAxis d)
    (h : performCall d c = Except.ok d1) : directionsOnAxis d1 := by
  cases c with
  | pitch cam => rw [renderView_pitch_ok d d1 cam h]; exact hd
  | roll cam => rw [renderView_roll_ok d d1 cam h]; exact hd
  | yaw cam => rw [renderView_yaw_ok d d1 cam h]; exact hd
  | doSpin cam vis => rcases doSpin_ok d d1 cam vis h with h1 | h1 <;> (rw [h1]; exact hd)
  | doRock cam vis => rcases doRock_ok d d1 cam vis h with h1 | h1 <;> (rw [h1]; exact hd)
  | setSpinEnabled e =>
    have h1 := (Except.ok.inj h).symm
    subst h1
    unfold ctkVTKOpenVRRenderView.setSpinEnabled
    split <;> exact hd
  | setRockEnabled e =>
    have h1 := (Except.ok.inj h).symm
    subst h1
    unfold ctkVTKOpenVRRenderView.setRockEnabled
    split <;> exact hd
  | setPitchDirection x =>
    have h1 := (Except.ok.inj h).symm
    subst h1
    unfold ctkVTKOpenVRRenderView.setPitchDirection
    split
    · exact hd
    · rename_i hx
      refine ⟨?_, hd.2⟩
      cases x <;> simp at hx ⊢
  | setRollDirection x =>
    have h1 := (Except.ok.inj h).symm
    subst h1
    unfold ctkVTKOpenVRRenderView.setRollDirection
    split
    · exact hd
    · rename_i hx
      refine ⟨hd.1, ?_, hd.2.2⟩
      cases x <;> simp at hx ⊢
  | setYawDirection x =>
    have h1 := (Except.ok.inj h).symm
    subst h1
    unfold ctkVTKOpenVRRenderView.setYawDirection
    split
    · exact hd
    · rename_i hx
      refine ⟨hd.1, hd.2.1, ?_⟩
      cases x <;> simp at hx ⊢
  | _ =>
    have h1 := (Except.ok.inj h).symm
    subst h1
    exact hd

theorem qAbs_eq_abs {α : Type} [LinearOrderedRing α] (t : α) : qAbs t = |t| := by
  unfold qAbs
  split
  · exact (abs_of_nonneg ‹_›).symm
  · exact (abs_of_neg (not_le.mp ‹_›)).symm

theorem scheduleRenderAt_nothing_pending (d : ctkVTKOpenVRAbstractViewPrivate)
    (msecs : MSecs) (vis : Bool) (now : Int) (he : d.RenderEnabled = true)
    (hp : d.RequestTime = none) :
    scheduleRenderAt d msecs false vis now =
      { d with
        RequestTime := some now
        RequestTimer := some (staticCastInt (stillModeReset msecs)) } := by
  simp [scheduleRenderAt, he, hp]

theorem scheduleRenderAt_pending (d : ctkVTKOpenVRAbstractViewPrivate) (msecs : MSecs)
    (vis : Bool) (now t0 : Int) (he : d.RenderEnabled = true) (hp : d.RequestTime = some t0) :
    scheduleRenderAt d msecs false vis now =
      if MSecs.ltInt msecs (now - t0) then forceRender d false vis else d := by
  simp [scheduleRenderAt, he, hp]

theorem binary64Parts_thirty : binary64Parts (100 * 1) 30 = (7505999378950827, -51) := by
  decide

theorem doubleQuotient_thirty :
    doubleQuotient 30 1 = MSecs.finite (7505999378950827 / 2251799813685248) := by
  unfold doubleQuotient roundBinary64
  rw [binary64Parts_thirty]
  have h51 : Int.toNat 51 = 51 := rfl
  norm_num [binary64Value, h51]

theorem binary64Parts_tenth :
    binary64Parts (100 * 36028797018963968) 3602879701896397 = (8796093022208000, -43) := by
  decide

theorem doubleQuotient_tenth :
    doubleQuotient 3602879701896397 36028797018963968 = MSecs.finite 1000 := by
  unfold doubleQuotient roundBinary64
  rw [binary64Parts_tenth]
  have h43 : Int.toNat 43 = 43 := rfl
  norm_num [binary64Value, h43]

theorem binary64Parts_hundred_thirds :
    binary64Parts (100 * 140737488355328) 4691249611844267 = (6755399441055744, -51) := by
  decide

theorem doubleQuotient_hundred_thirds :
    doubleQuotient 4691249611844267 140737488355328 = MSecs.finite 3 := by
  unfold doubleQuotient roundBinary64
  rw [binary64Parts_hundred_thirds]
  have h51 : Int.toNat 51 = 51 := rfl
  norm_num [binary64Value, h51]

theorem binary64Value_nonneg (parts : Nat × Int) : 0 ≤ binary64Value parts := by
  unfold binary64Value
  split <;> positivity

theorem doubleQuotient_nonneg (rateNum rateDen : Nat) (q : ℚ)
    (h : doubleQuotient rateNum rateDen = MSecs.finite q) : 0 ≤ q := by
  unfold doubleQuotient roundBinary64 at h
  split at h
  · cases h
  · split at h
    · cases h
      exact le_refl 0
    · split at h
      · cases h
      · cases h
        exact binary64Value_nonneg _

/-! ## The claims -/

/-- C1: while `RenderEnabled` is false, any finite sequence of `scheduleRender` calls
(any origin, any clock readings, any desired update rate, any visibility) leaves the
state as it was, so the number of `Render()` calls does not change: no draw occurs. -/
theorem C1_disabled_requests_never_draw (d : ctkVTKOpenVRAbstractViewPrivate)
    (requests : List RenderRequest) (h : d.RenderEnabled = false) :
    (scheduleRenders d requests).Renders = d.Renders ∧ scheduleRenders d requests = d := by
  have hs := scheduleRenders_disabled d h requests
  exact ⟨by rw [hs], hs⟩

/-- Witness of C1: a disabled view with a render pending receives a system-forced and a
catch-up request; the render count stays at 4. -/
theorem C1_disabled_requests_never_draw_witness :
    examplePendingDisabled.RenderEnabled = false ∧
    (scheduleRenders examplePendingDisabled
        [⟨10, true, true, 5⟩, ⟨10, false, true, 50⟩]).Renders = 4 :=
  ⟨rfl, (C1_disabled_requests_never_draw examplePendingDisabled
    [⟨10, true, true, 5⟩, ⟨10, false, true, 50⟩] rfl).1⟩

/-- C2, as stated, fails: an enabled view whose widget is not visible receives a
system-forced request (in a paint event) and performs no draw. -/
theorem C2_counterexample_invisible :
    exampleIdle.RenderEnabled = true ∧
    (scheduleRender exampleIdle 10 true false 0).Renders = exampleIdle.Renders ∧
    (scheduleRender exampleIdle 10 true false 0).Renders ≠ exampleIdle.Renders + 1 := by
  refine ⟨rfl, ?_, ?_⟩ <;> simp [scheduleRender, scheduleRenderAt, forceRender, exampleIdle, init]

/-- C2 (amended): a system-forced request (in a paint event) issued with rendering
enabled and the view visible performs exactly one draw during the call, whatever the
pending marker and the timer are; afterwards nothing is pending and the timer is
stopped. -/
theorem C2_system_forced_request_draws_once (d : ctkVTKOpenVRAbstractViewPrivate)
    (rate : ℚ) (now : Int) (h : d.RenderEnabled = true) :
    (scheduleRender d rate true true now).Renders = d.Renders + 1 ∧
    (scheduleRender d rate true true now).RequestTime = none ∧
    (scheduleRender d rate true true now).RequestTimer = none := by
  simp [scheduleRender, scheduleRenderAt, forceRender, h]

/-- Witness of C2 (amended): a system-forced request at t = 7 on an enabled, visible
view with a render pending since t = 0 takes the render count from 0 to 1. -/
theorem C2_system_forced_request_draws_once_witness :
    examplePending.RenderEnabled = true ∧
    (scheduleRender examplePending 10 true true 7).Renders = examplePending.Renders + 1 :=
  ⟨rfl, (C2_system_forced_request_draws_once examplePending 10 7 rfl).1⟩

/-- C3, as stated, fails.  At the desired update rate 30 the quotient is at most 10000,
yet the timer is armed for 3 ms, which is not 100/30 ms.  At the rate
3602879701896397 / 2^55, the double nearest to 0.1, the code computes the double 1000 and
arms the timer for 1000 ms, although the exact quotient is below 1000. -/
theorem C3_counterexample_rates_30_and_tenth :
    exampleIdle.RenderEnabled = true ∧ exampleIdle.RequestTime = none ∧
    (100 : ℚ) / 30 ≤ 10000 ∧
    (scheduleRenderAt exampleIdle (doubleQuotient 30 1) false true 0).RequestTimer
      = some 3 ∧
    (¬ ∃ ms : Int,
      (scheduleRenderAt exampleIdle (doubleQuotient 30 1) false true 0).RequestTimer
        = some ms ∧ (ms : ℚ) = 100 / 30) ∧
    (100 : ℚ) / (3602879701896397 / 36028797018963968) ≤ 10000 ∧
    (scheduleRenderAt exampleIdle (doubleQuotient 3602879701896397 36028797018963968)
      false true 0).RequestTimer = some 1000 ∧
    (100 : ℚ) / (3602879701896397 / 36028797018963968) < 1000 := by
  have h30 : (scheduleRenderAt exampleIdle (doubleQuotient 30 1) false true 0).RequestTimer
      = some 3 := by
    rw [scheduleRenderAt_nothing_pending exampleIdle _ true 0 rfl rfl, doubleQuotient_thirty]
    simp only [stillModeReset, MSecs.gt, staticCastInt]
    norm_num
  have h10 : (scheduleRenderAt exampleIdle
      (doubleQuotient 3602879701896397 36028797018963968) false true 0).RequestTimer
      = some 1000 := by
    rw [scheduleRenderAt_nothing_pending exampleIdle _ true 0 rfl rfl, doubleQuotient_tenth]
    simp only [stillModeReset, MSecs.gt, staticCastInt]
    norm_num
  refine ⟨rfl, rfl, by norm_num, h30, ?_, by norm_num, h10, by norm_num⟩
  rintro ⟨ms, hms, hq⟩
  rw [h30] at hms
  have h3 : ms = 3 := (Option.some.inj hms).symm
  subst h3
  norm_num at hq

/-- C3 (amended): with rendering enabled and no render pending, whenever the double
value m that the code computes for `100. / rate` satisfies -2147483649 < m ≤ 10000, a
non-forced `scheduleRender` at time t performs no draw, sets the pending marker to t,
and arms the one-shot timer for the integer truncation toward zero of m milliseconds,
a value within the range of `int`. -/
theorem C3_request_arms_truncated_interval (d : ctkVTKOpenVRAbstractViewPrivate) (m : ℚ)
    (vis : Bool) (t : Int) (he : d.RenderEnabled = true) (hp : d.RequestTime = none)
    (hlo : -2147483649 < m) (hle : m ≤ 10000) :
    (scheduleRenderAt d (MSecs.finite m) false vis t).Renders = d.Renders ∧
    (scheduleRenderAt d (MSecs.finite m) false vis t).RequestTime = some t ∧
    (scheduleRenderAt d (MSecs.finite m) false vis t).RequestTimer =
      some (if 0 ≤ m then ⌊m⌋ else ⌈m⌉) ∧
    -2147483648 ≤ (if 0 ≤ m then ⌊m⌋ else ⌈m⌉) ∧
    (if 0 ≤ m then ⌊m⌋ else ⌈m⌉) ≤ 10000 := by
  rw [scheduleRenderAt_nothing_pending d _ vis t he hp]
  have hreset : stillModeReset (MSecs.finite m) = m := by
    simp [stillModeReset, MSecs.gt, not_lt.mpr hle]
  rw [hreset]
  refine ⟨rfl, rfl, rfl, ?_, ?_⟩
  · by_cases h0 : 0 ≤ m
    · rw [if_pos h0]
      exact le_trans (by norm_num) (Int.floor_nonneg.mpr h0)
    · rw [if_neg h0]
      have h1 : (-2147483649 : Int) < ⌈m⌉ := Int.lt_ceil.mpr (by exact_mod_cast hlo)
      omega
  · by_cases h0 : 0 ≤ m
    · rw [if_pos h0]
      have h1 : ((⌊m⌋ : Int) : ℚ) ≤ ((10000 : Int) : ℚ) := by
        push_cast
        exact le_trans (Int.floor_le _) hle
      exact Int.cast_le.mp h1
    · rw [if_neg h0]
      exact Int.ceil_le.mpr (le_trans (le_of_lt (not_le.mp h0)) (by norm_num))

/-- Witness of C3 (amended): at the double nearest to 0.1 the code computes the quotient
1000, and a request at t = 0 on the idle view arms the timer for 1000 ms. -/
theorem C3_request_arms_truncated_interval_witness :
    exampleIdle.RenderEnabled = true ∧ exampleIdle.RequestTime = none ∧
    (-2147483649 : ℚ) < 1000 ∧ (1000 : ℚ) ≤ 10000 ∧
    doubleQuotient 3602879701896397 36028797018963968 = MSecs.finite 1000 ∧
    (scheduleRenderAt exampleIdle (MSecs.finite 1000) false true 0).RequestTimer =
      some (if 0 ≤ (1000 : ℚ) then ⌊(1000 : ℚ)⌋ else ⌈(1000 : ℚ)⌉) :=
  ⟨rfl, rfl, by norm_num, by norm_num, doubleQuotient_tenth,
    (C3_request_arms_truncated_interval exampleIdle 1000 true 0 rfl rfl
      (by norm_num) (by norm_num)).2.2.1⟩

/-- C4: in still mode, that is for a desired update rate r > 0 with 100/r > 10000, a
non-forced `scheduleRender` issued with rendering enabled and no render pending arms
the timer for 0 ms (which is not 100/r ms), sets the pending marker to the current
time and performs no draw. -/
theorem C4_still_mode_arms_zero (d : ctkVTKOpenVRAbstractViewPrivate) (r : ℚ)
    (vis : Bool) (t : Int) (he : d.RenderEnabled = true) (hp : d.RequestTime = none)
    (hr : 0 < r) (hgt : 10000 < 100 / r) :
    (scheduleRender d r false vis t).RequestTimer = some 0 ∧
    ((0 : Int) : ℚ) ≠ 100 / r ∧
    (scheduleRender d r false vis t).RequestTime = some t ∧
    (scheduleRender d r false vis t).Renders = d.Renders := by
  rw [scheduleRender_nothing_pending d r vis t he hp,
    stillModeReset_of_gt r (ne_of_gt hr) hgt]
  refine ⟨by simp [staticCastInt], ?_, rfl, rfl⟩
  have : (0 : ℚ) < 100 / r := lt_trans (by norm_num) hgt
  simpa using ne_of_lt this

/-- Witness of C4: the rate 1/1000 gives 100/r = 100000 > 10000 and the timer is armed
for 0 ms. -/
theorem C4_still_mode_arms_zero_witness :
    exampleIdle.RenderEnabled = true ∧ exampleIdle.RequestTime = none ∧
    (0 : ℚ) < 1 / 1000 ∧ (10000 : ℚ) < 100 / (1 / 1000) ∧
    (scheduleRender exampleIdle (1 / 1000) false true 5).RequestTimer = some 0 :=
  ⟨rfl, rfl, by norm_num, by norm_num,
    (C4_still_mode_arms_zero exampleIdle (1 / 1000) true 5 rfl rfl
      (by norm_num) (by norm_num)).1⟩

/-- C5: with rendering enabled and a render pending since t0, a non-forced
`scheduleRender` at time t whose elapsed time t - t0 does not exceed 100 / rate (for a
zero rate the quotient is +∞ and nothing exceeds it) leaves the whole state unchanged:
no draw, same pending timestamp, same armed timer, same `RenderEnabled`. -/
theorem C5_pending_request_within_interval_noop (d : ctkVTKOpenVRAbstractViewPrivate)
    (r : ℚ) (vis : Bool) (t t0 : Int) (he : d.RenderEnabled = true)
    (hp : d.RequestTime = some t0) (hle : r = 0 ∨ ((t - t0 : Int) : ℚ) ≤ 100 / r) :
    scheduleRender d r false vis t = d ∧
    (scheduleRender d r false vis t).Renders = d.Renders ∧
    (scheduleRender d r false vis t).RequestTime = d.RequestTime ∧
    (scheduleRender d r false vis t).RequestTimer = d.RequestTimer ∧
    (scheduleRender d r false vis t).RenderEnabled = d.RenderEnabled := by
  have hs : scheduleRender d r false vis t = d := by
    rw [scheduleRender_pending d r vis t t0 he hp]
    by_cases h0 : r = 0
    · simp [msecsBeforeRender, h0, MSecs.ltInt]
    · have hq := hle.resolve_left h0
      rw [Int.cast_sub] at hq
      simp [msecsBeforeRender, h0, MSecs.ltInt, not_lt.mpr hq]
  rw [hs]
  exact ⟨rfl, rfl, rfl, rfl, rfl⟩

/-- Witness of C5: at rate 10 (interval 10 ms) a request 10 ms after the pending one
changes nothing. -/
theorem C5_pending_request_within_interval_noop_witness :
    examplePending.RenderEnabled = true ∧ examplePending.RequestTime = some 0 ∧
    (((10 - 0 : Int) : ℚ) ≤ 100 / 10) ∧
    scheduleRender examplePending 10 false true 10 = examplePending :=
  ⟨rfl, rfl, by norm_num,
    (C5_pending_request_within_interval_noop examplePending 10 true 10 0 rfl rfl
      (Or.inr (by norm_num))).1⟩

/-- C6, as stated, fails.  At the rate 3602879701896397 / 2^55, the double nearest to
0.1, the exact quotient 100 / rate is below 1000, so an elapsed time of 1000 ms strictly
exceeds it; but the code computes the double 1000, its test `1000 > 1000.0` is false,
and the request changes nothing: no draw, the pending marker stays. -/
theorem C6_counterexample_rounded_quotient :
    examplePending.RenderEnabled = true ∧ examplePending.RequestTime = some 0 ∧
    (100 : ℚ) / (3602879701896397 / 36028797018963968) < ((1000 - 0 : Int) : ℚ) ∧
    doubleQuotient 3602879701896397 36028797018963968 = MSecs.finite 1000 ∧
    scheduleRenderAt examplePending (doubleQuotient 3602879701896397 36028797018963968)
      false true 1000 = examplePending ∧
    (scheduleRenderAt examplePending (doubleQuotient 3602879701896397 36028797018963968)
      false true 1000).Renders ≠ examplePending.Renders + 1 ∧
    (scheduleRenderAt examplePending (doubleQuotient 3602879701896397 36028797018963968)
      false true 1000).RequestTime ≠ none := by
  have hs : scheduleRenderAt examplePending
      (doubleQuotient 3602879701896397 36028797018963968) false true 1000
      = examplePending := by
    rw [scheduleRenderAt_pending examplePending _ true 1000 0 rfl rfl, doubleQuotient_tenth]
    simp [MSecs.ltInt]
  rw [hs]
  refine ⟨rfl, rfl, by norm_num, doubleQuotient_tenth, rfl, ?_, ?_⟩
  · simp [examplePending, init]
  · simp [examplePending, init]

/-- C6 (amended): with rendering enabled, the view visible and a render pending since
t0, a non-forced `scheduleRender` at time t whose elapsed time t - t0 strictly exceeds
the double value m that the code computes for `100. / rate` performs exactly one draw
in that call, clears the pending marker and stops the timer. -/
theorem C6_pending_request_catch_up (d : ctkVTKOpenVRAbstractViewPrivate)
    (m : ℚ) (t t0 : Int) (he : d.RenderEnabled = true)
    (hp : d.RequestTime = some t0) (hgt : m < ((t - t0 : Int) : ℚ)) :
    (scheduleRenderAt d (MSecs.finite m) false true t).Renders = d.Renders + 1 ∧
    (scheduleRenderAt d (MSecs.finite m) false true t).RequestTime = none ∧
    (scheduleRenderAt d (MSecs.finite m) false true t).RequestTimer = none := by
  rw [scheduleRenderAt_pending d _ true t t0 he hp]
  rw [Int.cast_sub] at hgt
  simp [MSecs.ltInt, hgt, forceRender, he]

/-- Witness of C6 (amended): at the double nearest to 0.1 the code computes the quotient
1000, and a request 1001 ms after the pending one draws once. -/
theorem C6_pending_request_catch_up_witness :
    examplePending.RenderEnabled = true ∧ examplePending.RequestTime = some 0 ∧
    doubleQuotient 3602879701896397 36028797018963968 = MSecs.finite 1000 ∧
    ((1000 : ℚ) < ((1001 - 0 : Int) : ℚ)) ∧
    (scheduleRenderAt examplePending (MSecs.finite 1000) false true 1001).Renders
      = examplePending.Renders + 1 :=
  ⟨rfl, rfl, doubleQuotient_tenth, by norm_num,
    (C6_pending_request_catch_up examplePending 1000 1001 0 rfl rfl (by norm_num)).1⟩

/-- C7: stale-timer suppression.  When the pending marker is already cleared,
`forceRender` invoked as the timer callback leaves the whole state unchanged, hence
performs no draw, and so does any number of such invocations in a row. -/
theorem C7_stale_timer_callback_noop (d : ctkVTKOpenVRAbstractViewPrivate) (vis : Bool)
    (visibilities : List Bool) (hp : d.RequestTime = none) :
    forceRender d true vis = d ∧
    (forceRender d true vis).Renders = d.Renders ∧
    timerCallbacks d visibilities = d ∧
    (timerCallbacks d visibilities).Renders = d.Renders := by
  rw [forceRender_stale d vis hp, timerCallbacks_stale d hp visibilities]
  exact ⟨rfl, rfl, rfl, rfl⟩

/-- Witness of C7: after the timer callback has rendered the pending request, three
further callbacks change nothing and the render count stays at 1. -/
theorem C7_stale_timer_callback_noop_witness :
    (forceRender examplePending true true).RequestTime = none ∧
    (forceRender examplePending true true).Renders = 1 ∧
    (timerCallbacks (forceRender examplePending true true) [true, true, false]).Renders
      = (forceRender examplePending true true).Renders :=
  ⟨rfl, rfl,
    (C7_stale_timer_callback_noop (forceRender examplePending true true) true
      [true, true, false] rfl).2.2.2⟩

/-- C8: every `forceRender` call that is not a stale timer callback (not: sent by the
timer while the pending marker is cleared) leaves the pending marker cleared and the
timer stopped, whether or not rendering is enabled and whether or not the view is
visible. -/
theorem C8_forceRender_clears_pending_and_timer (d : ctkVTKOpenVRAbstractViewPrivate)
    (senderIsRequestTimer vis : Bool)
    (h : ¬ (senderIsRequestTimer = true ∧ d.RequestTime = none)) :
    (forceRender d senderIsRequestTimer vis).RequestTime = none ∧
    (forceRender d senderIsRequestTimer vis).RequestTimer = none := by
  have hc : (senderIsRequestTimer && d.RequestTime.isNone) = false := by
    cases senderIsRequestTimer <;> cases hrt : d.RequestTime <;> simp_all
  unfold forceRender
  rw [hc]
  by_cases hd : (!d.RenderEnabled || !vis) = true <;> simp [hd]

/-- Witness of C8: the timer callback on a disabled view with a render pending clears
the marker and the timer. -/
theorem C8_forceRender_clears_pending_and_timer_witness :
    ¬ (true = true ∧ examplePendingDisabled.RequestTime = none) ∧
    (forceRender examplePendingDisabled true false).RequestTime = none ∧
    (forceRender examplePendingDisabled true false).RequestTimer = none :=
  ⟨by decide,
    C8_forceRender_clears_pending_and_timer examplePendingDisabled true false (by decide)⟩

/-- C9: one `forceRender` call performs at most one draw; it performs exactly one if
and only if rendering is enabled, the view is visible and the call is not a stale timer
callback.  In particular a direct call with nothing pending on an enabled, visible view
draws once, and a call on a disabled view or with the view invisible draws nothing. -/
theorem C9_forceRender_draw_count (d : ctkVTKOpenVRAbstractViewPrivate)
    (senderIsRequestTimer vis : Bool) :
    ((forceRender d senderIsRequestTimer vis).Renders = d.Renders ∨
      (forceRender d senderIsRequestTimer vis).Renders = d.Renders + 1) ∧
    ((forceRender d senderIsRequestTimer vis).Renders = d.Renders + 1 ↔
      (d.RenderEnabled = true ∧ vis = true ∧
        ¬ (senderIsRequestTimer = true ∧ d.RequestTime = none))) ∧
    (forceRender { d with RenderEnabled := true, RequestTime := none } false true).Renders
      = d.Renders + 1 ∧
    (forceRender { d with RenderEnabled := false } senderIsRequestTimer vis).Renders
      = d.Renders ∧
    (forceRender d senderIsRequestTimer false).Renders = d.Renders := by
  refine ⟨?_, ?_, ?_, ?_, ?_⟩
  · cases senderIsRequestTimer <;> cases vis <;> cases hrt : d.RequestTime <;>
      cases he : d.RenderEnabled <;> simp [forceRender, hrt, he]
  · cases senderIsRequestTimer <;> cases vis <;> cases hrt : d.RequestTime <;>
      cases he : d.RenderEnabled <;> simp [forceRender, hrt, he]
  · simp [forceRender]
  · cases senderIsRequestTimer <;> cases hrt : d.RequestTime <;> simp [forceRender, hrt]
  · cases senderIsRequestTimer <;> cases hrt : d.RequestTime <;> simp [forceRender, hrt]

/-- C10: starting enabled with nothing pending, after a non-forced `scheduleRender` at
time t (any desired update rate) followed by `setRenderEnabled(false)`, the pending
marker is still t and the timer is still armed as the request armed it; when the timer
then fires, `forceRender` performs no draw, clears the pending marker and leaves the
timer stopped. -/
theorem C10_disable_before_timer_fires (d : ctkVTKOpenVRAbstractViewPrivate) (r : ℚ)
    (vis visAtTimeout : Bool) (t : Int)
    (he : d.RenderEnabled = true) (hp : d.RequestTime = none) :
    (scheduleRender d r false vis t).RequestTime = some t ∧
    (scheduleRender d r false vis t).RequestTimer.isSome = true ∧
    (scheduleRender d r false vis t).Renders = d.Renders ∧
    renderEnabled (setRenderEnabled (scheduleRender d r false vis t) false) = false ∧
    (setRenderEnabled (scheduleRender d r false vis t) false).RequestTime = some t ∧
    (setRenderEnabled (scheduleRender d r false vis t) false).RequestTimer
      = (scheduleRender d r false vis t).RequestTimer ∧
    (forceRender (setRenderEnabled (scheduleRender d r false vis t) false) true
      visAtTimeout).Renders = d.Renders ∧
    (forceRender (setRenderEnabled (scheduleRender d r false vis t) false) true
      visAtTimeout).RequestTime = none ∧
    (forceRender (setRenderEnabled (scheduleRender d r false vis t) false) true
      visAtTimeout).RequestTimer = none := by
  rw [scheduleRender_nothing_pending d r vis t he hp]
  simp [setRenderEnabled, renderEnabled, forceRender]

/-- Witness of C10: at rate 10 the idle view is asked to render at t = 0, disabled, and
the timer callback then leaves the render count at 0. -/
theorem C10_disable_before_timer_fires_witness :
    exampleIdle.RenderEnabled = true ∧ exampleIdle.RequestTime = none ∧
    (forceRender (setRenderEnabled (scheduleRender exampleIdle 10 false true 0) false) true
      true).Renders = exampleIdle.Renders :=
  ⟨rfl, rfl,
    (C10_disable_before_timer_fires exampleIdle 10 true true 0 rfl rfl).2.2.2.2.2.2.1⟩

/-- C11: coalescing.  For a desired update rate r > 0 with 100/r ≤ 10000, starting
enabled with nothing pending, two non-forced `scheduleRender` calls at times t0 and t1
with t1 - t0 ≤ 100/r draw nothing (the second one changes nothing at all) and leave the
timer armed; when the timer then fires with the view visible, exactly one draw happens
and the pending marker is cleared. -/
theorem C11_two_requests_one_draw (d : ctkVTKOpenVRAbstractViewPrivate) (r : ℚ)
    (vis0 vis1 : Bool) (t0 t1 : Int)
    (he : d.RenderEnabled = true) (hp : d.RequestTime = none)
    (_hr : 0 < r) (_hle : 100 / r ≤ 10000) (hgap : ((t1 - t0 : Int) : ℚ) ≤ 100 / r) :
    (scheduleRender d r false vis0 t0).Renders = d.Renders ∧
    scheduleRender (scheduleRender d r false vis0 t0) r false vis1 t1
      = scheduleRender d r false vis0 t0 ∧
    (scheduleRender (scheduleRender d r false vis0 t0) r false vis1 t1).RequestTimer.isSome
      = true ∧
    (forceRender (scheduleRender (scheduleRender d r false vis0 t0) r false vis1 t1)
      true true).Renders = d.Renders + 1 ∧
    (forceRender (scheduleRender (scheduleRender d r false vis0 t0) r false vis1 t1)
      true true).RequestTime = none := by
  have h1 := scheduleRender_nothing_pending d r vis0 t0 he hp
  have he1 : (scheduleRender d r false vis0 t0).RenderEnabled = true := by rw [h1]; exact he
  have hp1 : (scheduleRender d r false vis0 t0).RequestTime = some t0 := by rw [h1]
  have h2 : scheduleRender (scheduleRender d r false vis0 t0) r false vis1 t1
      = scheduleRender d r false vis0 t0 :=
    (scheduleRender_pending_within_interval (scheduleRender d r false vis0 t0) r vis1 t1 t0 he1 hp1
      (Or.inr hgap))
  rw [h2, h1]
  simp [forceRender, he]

/-- Witness of C11: the two scenarios of the specification, rate 30 with requests 1 ms
apart and rate 10 with requests at t = 0 and t = 5; in both the timer callback takes the
render count of the idle view from 0 to 1. -/
theorem C11_two_requests_one_draw_witness :
    (exampleIdle.RenderEnabled = true ∧ exampleIdle.RequestTime = none ∧
      (0 : ℚ) < 30 ∧ (100 : ℚ) / 30 ≤ 10000 ∧ (((1 - 0 : Int) : ℚ) ≤ 100 / 30) ∧
      (forceRender (scheduleRender (scheduleRender exampleIdle 30 false true 0)
        30 false true 1) true true).Renders = exampleIdle.Renders + 1) ∧
    ((0 : ℚ) < 10 ∧ (100 : ℚ) / 10 ≤ 10000 ∧ (((5 - 0 : Int) : ℚ) ≤ 100 / 10) ∧
      (forceRender (scheduleRender (scheduleRender exampleIdle 10 false true 0)
        10 false true 5) true true).Renders = exampleIdle.Renders + 1) :=
  ⟨⟨rfl, rfl, by norm_num, by norm_num, by norm_num,
      (C11_two_requests_one_draw exampleIdle 30 true true 0 1 rfl rfl
        (by norm_num) (by norm_num) (by norm_num)).2.2.2.1⟩,
    ⟨by norm_num, by norm_num, by norm_num,
      (C11_two_requests_one_draw exampleIdle 10 true true 0 5 rfl rfl
        (by norm_num) (by norm_num) (by norm_num)).2.2.2.1⟩⟩

/-- C12: `setRenderEnabled(b)` is a plain gate toggle: afterwards `renderEnabled()`
returns b, while the pending marker, the timer, every other field and the render count
are as before; a freshly constructed view has `renderEnabled() == true`. -/
theorem C12_setRenderEnabled_only_toggles_gate (d : ctkVTKOpenVRAbstractViewPrivate)
    (b : Bool) :
    renderEnabled (setRenderEnabled d b) = b ∧
    (setRenderEnabled d b).RequestTime = d.RequestTime ∧
    (setRenderEnabled d b).RequestTimer = d.RequestTimer ∧
    (setRenderEnabled d b).FPSVisible = d.FPSVisible ∧
    (setRenderEnabled d b).FPSTimer = d.FPSTimer ∧
    (setRenderEnabled d b).FPS = d.FPS ∧
    (setRenderEnabled d b).Renders = d.Renders ∧
    renderEnabled init = true :=
  ⟨rfl, rfl, rfl, rfl, rfl, rfl, rfl, rfl⟩

/-- C14, as stated, fails: with a render pending, a request made in a paint event
while the view is not visible neither leaves the state unchanged nor renders; it clears
the pending marker and the timer without a draw. -/
theorem C14_counterexample_invisible :
    examplePending.RequestTime = some 0 ∧
    scheduleRender examplePending 10 true false 7 ≠ examplePending ∧
    (scheduleRender examplePending 10 true false 7).Renders = examplePending.Renders ∧
    ¬ (scheduleRender examplePending 10 true false 7 = examplePending ∨
        ((scheduleRender examplePending 10 true false 7).Renders
            = examplePending.Renders + 1 ∧
          (scheduleRender examplePending 10 true false 7).RequestTime = none ∧
          (scheduleRender examplePending 10 true false 7).RequestTimer = none)) := by
  have hs : scheduleRender examplePending 10 true false 7
      = { examplePending with RequestTimer := none, RequestTime := none } := by
    simp [scheduleRender, scheduleRenderAt, forceRender, examplePending, init]
  rw [hs]
  simp [examplePending, init]

/-- C14 (amended): at most one deferred render is scheduled at a time.  With a render
pending, a `scheduleRender` call never arms or re-arms the timer and never changes the
pending timestamp to a new value: it either leaves the state unchanged, or clears the
pending marker and stops the timer, drawing exactly once when the view is visible and
not at all when it is not.  Neither `forceRender` nor `setRenderEnabled` arms the
timer, so it is armed only by a request that finds no render pending. -/
theorem C14_pending_request_never_rearms (d : ctkVTKOpenVRAbstractViewPrivate) (r : ℚ)
    (paint vis sender b : Bool) (t t0 : Int) (hp : d.RequestTime = some t0) :
    (scheduleRender d r paint vis t = d ∨
      ((scheduleRender d r paint vis t).RequestTime = none ∧
        (scheduleRender d r paint vis t).RequestTimer = none ∧
        (scheduleRender d r paint vis t).Renders
          = d.Renders + (if vis = true then 1 else 0))) ∧
    ((scheduleRender d r paint vis t).RequestTimer = d.RequestTimer ∨
      (scheduleRender d r paint vis t).RequestTimer = none) ∧
    ((scheduleRender d r paint vis t).RequestTime = some t0 ∨
      (scheduleRender d r paint vis t).RequestTime = none) ∧
    ((forceRender d sender vis).RequestTimer = none) ∧
    ((setRenderEnabled d b).RequestTimer = d.RequestTimer) := by
  have hs : scheduleRender d r paint vis t = d ∨
      (d.RenderEnabled = true ∧ scheduleRender d r paint vis t = forceRender d false vis) := by
    by_cases he : d.RenderEnabled = true
    · cases paint
      · rw [scheduleRender_pending d r vis t t0 he hp]
        split
        · exact Or.inr ⟨he, rfl⟩
        · exact Or.inl rfl
      · exact Or.inr ⟨he, by simp [scheduleRender, scheduleRenderAt, he]⟩
    · exact Or.inl (scheduleRender_disabled d r paint vis t (by simpa using he))
  have hfr : (forceRender d sender vis).RequestTimer = none := by
    cases sender <;> cases vis <;> cases he : d.RenderEnabled <;> simp [forceRender, hp, he]
  refine ⟨?_, ?_, ?_, hfr, rfl⟩
  · rcases hs with hs | ⟨he, hs⟩
    · exact Or.inl hs
    · rw [hs]
      cases vis <;> simp [forceRender, he]
  · rcases hs with hs | ⟨he, hs⟩
    · exact Or.inl (by rw [hs])
    · rw [hs]
      cases vis <;> simp [forceRender, he]
  · rcases hs with hs | ⟨he, hs⟩
    · exact Or.inl (by rw [hs, hp])
    · rw [hs]
      cases vis <;> simp [forceRender, he]

/-- Witness of C14 (amended): with a render pending since t = 0, a request at t = 5 at
rate 10 leaves the timer as it was or stopped. -/
theorem C14_pending_request_never_rearms_witness :
    examplePending.RequestTime = some 0 ∧
    ((scheduleRender examplePending 10 false true 5).RequestTimer
        = examplePending.RequestTimer ∨
      (scheduleRender examplePending 10 false true 5).RequestTimer = none) :=
  ⟨rfl, (C14_pending_request_never_rearms examplePending 10 false true false false 5 0
    rfl).2.1⟩

/-- C15: in every state reached from the initial state (enabled, nothing pending, timer
stopped) by any sequence of `scheduleRender` calls of either origin with a positive
desired update rate, direct `forceRender` calls, timer expiries delivered as
`forceRender` from the timer, and `setRenderEnabled` calls, under any visibilities, the
pending marker is set if and only if `RequestTimer` is armed. -/
theorem C15_pending_marker_iff_timer_armed (events : List ThrottleEvent)
    (_hpos : ∀ e ∈ events, ThrottleEvent.positiveRate e) :
    ((applyEvents init events).RequestTime.isSome = true ↔
      (applyEvents init events).RequestTimer.isSome = true) :=
  applyEvents_pendingIffArmed events init (by simp [pendingIffArmed, init])

/-- Witness of C15: a request at rate 10, a second request, a disable, the timer expiry,
an enable and a forced repaint. -/
theorem C15_pending_marker_iff_timer_armed_witness :
    ((applyEvents init
        [ThrottleEvent.scheduleRender 10 false true 0,
         ThrottleEvent.scheduleRender 10 false true 5,
         ThrottleEvent.setRenderEnabled false,
         ThrottleEvent.requestTimerTimeout true,
         ThrottleEvent.setRenderEnabled true,
         ThrottleEvent.scheduleRender 10 true true 20]).RequestTime.isSome = true ↔
      (applyEvents init
        [ThrottleEvent.scheduleRender 10 false true 0,
         ThrottleEvent.scheduleRender 10 false true 5,
         ThrottleEvent.setRenderEnabled false,
         ThrottleEvent.requestTimerTimeout true,
         ThrottleEvent.setRenderEnabled true,
         ThrottleEvent.scheduleRender 10 true true 20]).RequestTimer.isSome = true) :=
  C15_pending_marker_iff_timer_armed _ (by
    intro e he
    simp only [List.mem_cons, List.mem_singleton, List.not_mem_nil, or_false] at he
    rcases he with rfl | rfl | rfl | rfl | rfl | rfl <;>
      simp [ThrottleEvent.positiveRate])

/-- C16, as stated, fails.  At the rate 4691249611844267 / 2^47, the double nearest to
1000/30, the quotient 100 / rate is positive, at most 10000 and below 3, so its
truncation is 2; but the code computes the double 3 and arms the timer for 3 ms, a
delay that is not the truncation of 100 / rate and exceeds 100 / rate. -/
theorem C16_counterexample_rounded_quotient :
    (0 : ℚ) < 4691249611844267 / 140737488355328 ∧
    (100 : ℚ) / (4691249611844267 / 140737488355328) ≤ 10000 ∧
    doubleQuotient 4691249611844267 140737488355328 = MSecs.finite 3 ∧
    (scheduleRenderAt exampleIdle (doubleQuotient 4691249611844267 140737488355328)
      false true 0).RequestTimer = some 3 ∧
    ⌊(100 : ℚ) / (4691249611844267 / 140737488355328)⌋ = 2 ∧
    ¬ (((3 : Int) : ℚ) ≤ 100 / (4691249611844267 / 140737488355328)) := by
  have h3 : (scheduleRenderAt exampleIdle
      (doubleQuotient 4691249611844267 140737488355328) false true 0).RequestTimer
      = some 3 := by
    rw [scheduleRenderAt_nothing_pending exampleIdle _ true 0 rfl rfl,
      doubleQuotient_hundred_thirds]
    simp only [stillModeReset, MSecs.gt, staticCastInt]
    norm_num
  refine ⟨by norm_num, by norm_num, doubleQuotient_hundred_thirds, h3, ?_, by norm_num⟩
  rw [Int.floor_eq_iff]
  norm_num

/-- C16 (amended): for a desired update rate r > 0 the double value m that the code
computes for `100. / r` is nonnegative or +∞, and the delay with which `scheduleRender`
arms the timer is the truncation toward zero of m when m ≤ 10000 and 0 otherwise; it
lies between 0 and 10000 and never exceeds m. -/
theorem C16_timer_delay (d : ctkVTKOpenVRAbstractViewPrivate) (m : MSecs) (vis : Bool)
    (t : Int) (he : d.RenderEnabled = true) (hp : d.RequestTime = none)
    (hm : ∀ q : ℚ, m = MSecs.finite q → 0 ≤ q) :
    ∃ delay : Int,
      (scheduleRenderAt d m false vis t).RequestTimer = some delay ∧
      delay = (match m with
        | MSecs.finite q => if q ≤ 10000 then (if 0 ≤ q then ⌊q⌋ else ⌈q⌉) else 0
        | MSecs.posInf => 0) ∧
      0 ≤ delay ∧ delay ≤ 10000 ∧ (∀ q : ℚ, m = MSecs.finite q → (delay : ℚ) ≤ q) := by
  rw [scheduleRenderAt_nothing_pending d m vis t he hp]
  cases m with
  | posInf =>
    refine ⟨0, by simp [stillModeReset, staticCastInt], rfl, le_refl 0, by norm_num, ?_⟩
    intro q hq
    cases hq
  | finite q =>
    have hq : 0 ≤ q := hm q rfl
    by_cases hle : q ≤ 10000
    · refine ⟨⌊q⌋, ?_, ?_, Int.floor_nonneg.mpr hq, ?_, ?_⟩
      · simp [stillModeReset, MSecs.gt, not_lt.mpr hle, staticCastInt, hq]
      · simp [hle, hq]
      · have h1 : ((⌊q⌋ : Int) : ℚ) ≤ ((10000 : Int) : ℚ) := by
          push_cast
          exact le_trans (Int.floor_le _) hle
        exact Int.cast_le.mp h1
      · intro q1 hq1
        cases hq1
        exact Int.floor_le _
    · refine ⟨0, ?_, ?_, le_refl 0, by norm_num, ?_⟩
      · simp [stillModeReset, MSecs.gt, not_le.mp hle, staticCastInt]
      · simp [hle]
      · intro q1 hq1
        cases hq1
        simpa using hq

/-- Witness of C16 (amended): at the double nearest to 1000/30 the computed quotient is
nonnegative, and the idle view arms the timer with a delay between 0 and 10000. -/
theorem C16_timer_delay_witness :
    exampleIdle.RenderEnabled = true ∧ exampleIdle.RequestTime = none ∧
    doubleQuotient 4691249611844267 140737488355328 = MSecs.finite 3 ∧
    ∃ delay : Int,
      (scheduleRenderAt exampleIdle (doubleQuotient 4691249611844267 140737488355328)
        false true 0).RequestTimer = some delay ∧
      0 ≤ delay ∧ delay ≤ 10000 :=
  ⟨rfl, rfl, doubleQuotient_hundred_thirds,
    (C16_timer_delay exampleIdle (doubleQuotient 4691249611844267 140737488355328) true 0
      rfl rfl (doubleQuotient_nonneg 4691249611844267 140737488355328)).elim
      (fun delay h => ⟨delay, h.1, h.2.2.1, h.2.2.2.1⟩)⟩

/-- C17: spin and rock exclude each other.  In every state reached from construction
by any sequence of calls (among them `setSpinEnabled`, `setRockEnabled` and the `doSpin`
and `doRock` ticks) `SpinEnabled` and `RockEnabled` are not both true; a
`setSpinEnabled(e)` that changes `SpinEnabled` leaves `RockEnabled` false, and a
`setRockEnabled(e)` that changes `RockEnabled` leaves `SpinEnabled` false. -/
theorem C17_spin_and_rock_exclusive (calls : List RenderViewCall)
    (d : ctkVTKOpenVRRenderViewPrivate) (e : Bool)
    (h : performCalls ctkVTKOpenVRRenderView.construct calls = Except.ok d) :
    ¬ (d.SpinEnabled = true ∧ d.RockEnabled = true) ∧
    ((ctkVTKOpenVRRenderView.setSpinEnabled d e).SpinEnabled ≠ d.SpinEnabled →
      (ctkVTKOpenVRRenderView.setSpinEnabled d e).RockEnabled = false) ∧
    ((ctkVTKOpenVRRenderView.setRockEnabled d e).RockEnabled ≠ d.RockEnabled →
      (ctkVTKOpenVRRenderView.setRockEnabled d e).SpinEnabled = false) := by
  refine ⟨?_, ?_, ?_⟩
  · exact performCalls_preserves spinRockExclusive performCall_spinRockExclusive calls
      ctkVTKOpenVRRenderView.construct d
      (by simp [spinRockExclusive, ctkVTKOpenVRRenderView.construct]) h
  · unfold ctkVTKOpenVRRenderView.setSpinEnabled
    split
    · intro hne
      exact absurd rfl hne
    · intro _
      rfl
  · unfold ctkVTKOpenVRRenderView.setRockEnabled
    split
    · intro hne
      exact absurd rfl hne
    · intro _
      rfl

/-- Witness of C17: after `setSpinEnabled(true)` and `setRockEnabled(true)` the view is
rocking and not spinning. -/
theorem C17_spin_and_rock_exclusive_witness :
    performCalls ctkVTKOpenVRRenderView.construct
      [RenderViewCall.setSpinEnabled true, RenderViewCall.setRockEnabled true]
      = Except.ok exampleRocking ∧
    ¬ (exampleRocking.SpinEnabled = true ∧ exampleRocking.RockEnabled = true) :=
  ⟨rfl, (C17_spin_and_rock_exclusive
    [RenderViewCall.setSpinEnabled true, RenderViewCall.setRockEnabled true]
    exampleRocking true rfl).1⟩

/-- C18 fails on the code: `setRockLength(0)` stores `qAbs(0) = 0`, and the `doRock`
tick of a rocking view then computes `RockIncrement % RockLength` with a zero
divisor. -/
theorem C18_rock_length_zero_reaches_division_by_zero :
    performCalls ctkVTKOpenVRRenderView.construct [RenderViewCall.setRockLength 0]
      = Except.ok (ctkVTKOpenVRRenderView.setRockLength ctkVTKOpenVRRenderView.construct 0) ∧
    (ctkVTKOpenVRRenderView.setRockLength ctkVTKOpenVRRenderView.construct 0).RockLength = 0 ∧
    performCalls ctkVTKOpenVRRenderView.construct
      [RenderViewCall.setRockLength 0, RenderViewCall.setRockEnabled true,
        RenderViewCall.doRock true true]
      = Except.error Failure.divisionByZero := by
  exact ⟨rfl, rfl, rfl⟩

/-- C19: in every state reached from construction by any sequence of calls (among them
`setPitchRollYawIncrement` and `setSpinIncrement` with any argument) the two increments
are nonnegative: they start as 5 and 2 and each setter stores the absolute value of its
argument.  Hence the assertion `rotateDegrees >= 0` of the private `pitch`, `roll` and
`yaw` holds on the calls made by the public `pitch()`, `roll()`, `yaw()` and by
`doSpin()`. -/
theorem C19_rotate_degrees_assertion_holds (calls : List RenderViewCall)
    (d : ctkVTKOpenVRRenderViewPrivate) (x : ℚ) (cam vis : Bool)
    (h : performCalls ctkVTKOpenVRRenderView.construct calls = Except.ok d) :
    (0 ≤ d.PitchRollYawIncrement ∧ 0 ≤ d.SpinIncrement) ∧
    (ctkVTKOpenVRRenderView.construct.PitchRollYawIncrement = 5 ∧
      ctkVTKOpenVRRenderView.construct.SpinIncrement = 2) ∧
    ((ctkVTKOpenVRRenderView.setPitchRollYawIncrement d x).PitchRollYawIncrement = |x| ∧
      (ctkVTKOpenVRRenderView.setSpinIncrement d x).SpinIncrement = |x|) ∧
    ctkVTKOpenVRRenderView.pitch d cam ≠ Except.error Failure.rotateDegreesAssertion ∧
    ctkVTKOpenVRRenderView.roll d cam ≠ Except.error Failure.rotateDegreesAssertion ∧
    ctkVTKOpenVRRenderView.yaw d cam ≠ Except.error Failure.rotateDegreesAssertion ∧
    ctkVTKOpenVRRenderViewPrivate.doSpin d cam vis
      ≠ Except.error Failure.rotateDegreesAssertion := by
  have hinv : incrementsNonneg d :=
    performCalls_preserves incrementsNonneg performCall_incrementsNonneg calls
      ctkVTKOpenVRRenderView.construct d
      (by simp [incrementsNonneg, ctkVTKOpenVRRenderView.construct]) h
  obtain ⟨hp, hs⟩ := hinv
  refine ⟨⟨hp, hs⟩, ⟨rfl, rfl⟩, ⟨qAbs_eq_abs x, qAbs_eq_abs x⟩, ?_, ?_, ?_, ?_⟩
  · cases cam <;>
      simp [ctkVTKOpenVRRenderView.pitch, ctkVTKOpenVRRenderViewPrivate.pitch, hp]
  · cases cam <;>
      simp [ctkVTKOpenVRRenderView.roll, ctkVTKOpenVRRenderViewPrivate.roll, hp]
  · cases cam <;>
      simp [ctkVTKOpenVRRenderView.yaw, ctkVTKOpenVRRenderViewPrivate.yaw, hp]
  · cases cam <;> cases hse : d.SpinEnabled <;> cases hsd : d.SpinDirection <;>
      simp [ctkVTKOpenVRRenderViewPrivate.doSpin,
        ctkVTKOpenVRRenderViewPrivate.spinRotation, ctkVTKOpenVRRenderViewPrivate.pitch,
        ctkVTKOpenVRRenderViewPrivate.roll, ctkVTKOpenVRRenderViewPrivate.yaw, hs, hse, hsd]

/-- Witness of C19: after `setPitchRollYawIncrement(-3)` and `setSpinIncrement(-4)`
both increments are nonnegative. -/
theorem C19_rotate_degrees_assertion_holds_witness :
    performCalls ctkVTKOpenVRRenderView.construct
      [RenderViewCall.setPitchRollYawIncrement (-3), RenderViewCall.setSpinIncrement (-4)]
      = Except.ok exampleIncrements ∧
    (0 ≤ exampleIncrements.PitchRollYawIncrement ∧ 0 ≤ exampleIncrements.SpinIncrement) :=
  ⟨rfl, (C19_rotate_degrees_assertion_holds
    [RenderViewCall.setPitchRollYawIncrement (-3), RenderViewCall.setSpinIncrement (-4)]
    exampleIncrements 0 true true rfl).1⟩

/-- C20: the direction setters validate their axis.  `setPitchDirection(x)` stores x
when x is `PitchUp` or `PitchDown` and otherwise leaves the state unchanged, likewise
`setRollDirection` with `RollLeft`/`RollRight` and `setYawDirection` with
`YawLeft`/`YawRight`; hence in every state reached from construction `PitchDirection`
is `PitchUp` or `PitchDown`, `RollDirection` is `RollLeft` or `RollRight` and
`YawDirection` is `YawLeft` or `YawRight`. -/
theorem C20_direction_setters_validate_axis (calls : List RenderViewCall)
    (d : ctkVTKOpenVRRenderViewPrivate) (x : RotateDirection)
    (h : performCalls ctkVTKOpenVRRenderView.construct calls = Except.ok d) :
    (ctkVTKOpenVRRenderView.setPitchDirection d x =
      if x = RotateDirection.PitchUp ∨ x = RotateDirection.PitchDown
        then { d with PitchDirection := x } else d) ∧
    (ctkVTKOpenVRRenderView.setRollDirection d x =
      if x = RotateDirection.RollLeft ∨ x = RotateDirection.RollRight
        then { d with RollDirection := x } else d) ∧
    (ctkVTKOpenVRRenderView.setYawDirection d x =
      if x = RotateDirection.YawLeft ∨ x = RotateDirection.YawRight
        then { d with YawDirection := x } else d) ∧
    (d.PitchDirection = RotateDirection.PitchUp ∨
      d.PitchDirection = RotateDirection.PitchDown) ∧
    (d.RollDirection = RotateDirection.RollLeft ∨
      d.RollDirection = RotateDirection.RollRight) ∧
    (d.YawDirection = RotateDirection.YawLeft ∨
      d.YawDirection = RotateDirection.YawRight) := by
  have hinv : directionsOnAxis d :=
    performCalls_preserves directionsOnAxis performCall_directionsOnAxis calls
      ctkVTKOpenVRRenderView.construct d
      (by simp [directionsOnAxis, ctkVTKOpenVRRenderView.construct]) h
  refine ⟨?_, ?_, ?_, hinv.1, hinv.2.1, hinv.2.2⟩
  · cases x <;> simp [ctkVTKOpenVRRenderView.setPitchDirection]
  · cases x <;> simp [ctkVTKOpenVRRenderView.setRollDirection]
  · cases x <;> simp [ctkVTKOpenVRRenderView.setYawDirection]

/-- Witness of C20: `setPitchDirection(PitchDown)` is stored, a following
`setRollDirection(YawLeft)` is rejected, and all three directions are on their axes. -/
theorem C20_direction_setters_validate_axis_witness :
    performCalls ctkVTKOpenVRRenderView.construct
      [RenderViewCall.setPitchDirection RotateDirection.PitchDown,
        RenderViewCall.setRollDirection RotateDirection.YawLeft]
      = Except.ok exampleDirections ∧
    (exampleDirections.PitchDirection = RotateDirection.PitchUp ∨
      exampleDirections.PitchDirection = RotateDirection.PitchDown) ∧
    (exampleDirections.RollDirection = RotateDirection.RollLeft ∨
      exampleDirections.RollDirection = RotateDirection.RollRight) :=
  ⟨rfl,
    (C20_direction_setters_validate_axis
      [RenderViewCall.setPitchDirection RotateDirection.PitchDown,
        RenderViewCall.setRollDirection RotateDirection.YawLeft]
      exampleDirections RotateDirection.PitchUp rfl).2.2.2.1,
    (C20_direction_setters_validate_axis
      [RenderViewCall.setPitchDirection RotateDirection.PitchDown,
        RenderViewCall.setRollDirection RotateDirection.YawLeft]
      exampleDirections RotateDirection.PitchUp rfl).2.2.2.2.1⟩

end CTK
